import Mathlib

/-!
Verification development for `junit2html_simple.py`, a converter from JUnit
XML test reports to a single self-contained HTML report.

Shallow embedding conventions:
* Python `float` values (elapsed times) are modelled as `ℚ`.
* The object model produced by the `junitparser` library is modelled by the
  structures `RawResult`, `RawCase`, `RawSuite`: a parsed file is a list of
  suites, a suite carries the optional XML attributes and its test cases, a
  case carries its optional attributes and its list of result children
  (`<failure>`, `<error>`, `<skipped>`).  An absent XML attribute is `none`.
* `JUnitXml.fromfile` does I/O; it is modelled as an oracle
  `fs : String → Except ParseErr (List RawSuite)` giving, per path, either
  the parsed suites or a parse failure.  `parse_files` over already-parsed
  files is the pure core of the source's `parse_files`; `parse_filesE`
  is the same loop with the per-path `fromfile` oracle and first-failure
  abort, and `mainE` is the CLI driver `main` (the generation timestamp
  `now` is passed as an argument instead of being read from the clock).
* Python strings are Lean `String`s; `html.escape(x, quote=True)` is the
  per-character substitution `_escape_html`.
* Python's `f"{x:.2f}"` float formatting is modelled on `ℚ` by `fmt2`
  (round half to even at two decimals), and `str(int)` by `natRepr` /
  `intRepr` (decimal digits, `-` sign).
* The dictionary `{"ok":"ok","fail":"fail","err":"err","skip":"skip"}[status]`
  raises `KeyError` on any other status, so its model `pill_class_map`
  returns an `Option` and the HTML builders that index it return `Option
  String` (`none` models the raised `KeyError`; it never happens on data
  produced by `parse_files`).
-/

/-- Decimal digit character for `n < 10` (the default branch is unreachable
in `natDigitsGo`, which only passes values `< 10`). -/
def digitChar (n : ℕ) : Char :=
  match n with
  | 0 => '0' | 1 => '1' | 2 => '2' | 3 => '3' | 4 => '4'
  | 5 => '5' | 6 => '6' | 7 => '7' | 8 => '8' | 9 => '9'
  | _ => '0'

/-- Fuel-driven decimal digit expansion; `fuel ≥ 1 + log10 n` suffices, and
`natRepr` passes `n + 1`. -/
def natDigitsGo : ℕ → ℕ → List Char → List Char
  | 0, _, acc => acc
  | fuel + 1, n, acc =>
    if n < 10 then digitChar n :: acc
    else natDigitsGo fuel (n / 10) (digitChar (n % 10) :: acc)

/-- Decimal representation of a natural number, as printed by Python `str`. -/
def natRepr (n : ℕ) : String := ⟨natDigitsGo (n + 1) n []⟩

/-- Decimal representation of an integer, as printed by Python `str`. -/
def intRepr (i : ℤ) : String :=
  if i < 0 then "-" ++ natRepr i.natAbs else natRepr i.natAbs

/-- Floor of a rational; this is Python's `//`-style floor (`ratFloor q = ⌊q⌋`,
proved below). -/
def ratFloor (q : ℚ) : ℤ := q.num / (q.den : ℤ)

/-- Round half to even, the rounding used by Python float formatting. -/
def roundHalfEven (q : ℚ) : ℤ :=
  let f := ratFloor q
  let r := q - (f : ℚ)
  if r < 1/2 then f
  else if 1/2 < r then f + 1
  else if f % 2 = 0 then f else f + 1

/-- Two-digit zero-padded decimal for `n < 100`. -/
def pad2 (n : ℕ) : String := if n < 10 then "0" ++ natRepr n else natRepr n

/-- Model of Python `f"{x:.2f}"` on `ℚ`: two decimal places, rounding half to
even, with a `-` sign for negative inputs. -/
def fmt2 (x : ℚ) : String :=
  let n := (roundHalfEven (|x| * 100)).toNat
  (if x < 0 then "-" else "") ++ natRepr (n / 100) ++ "." ++ pad2 (n % 100)

/-- `seconds_fmt` from the source: `"{sec:.2f}s"` below one minute, otherwise
`"{m}m{s:.2f}s"` with `m = int(sec // 60)` and `s = sec - m * 60`. -/
def seconds_fmt (sec : ℚ) : String :=
  if sec ≥ 60 then
    let m : ℤ := ratFloor (sec / 60)
    let s : ℚ := sec - (m : ℚ) * 60
    intRepr m ++ "m" ++ fmt2 s ++ "s"
  else fmt2 sec ++ "s"

/-- `label_of` from the source: status-code → label, via
`{"ok":"PASS","fail":"FAIL","err":"ERROR","skip":"SKIP"}.get(status, status)`
(the dictionary `get` falls back to the key itself). -/
def label_of (status : String) : String :=
  if status = "ok" then "PASS"
  else if status = "fail" then "FAIL"
  else if status = "err" then "ERROR"
  else if status = "skip" then "SKIP"
  else status

/-- The dictionary lookup `{"ok":"ok","fail":"fail","err":"err","skip":"skip"}[status]`
used by `_build_row_html` for the pill CSS class; `none` models the
`KeyError` raised on any other status. -/
def pill_class_map (status : String) : Option String :=
  if status = "ok" then some "ok"
  else if status = "fail" then some "fail"
  else if status = "err" then some "err"
  else if status = "skip" then some "skip"
  else none

/-- The apostrophe character (spelled via its code point). -/
def aposChar : Char := Char.ofNat 39

/-- Per-character substitution of `html.escape(x, quote=True)`. -/
def escChar (c : Char) : List Char :=
  if c = '&' then "&amp;".data
  else if c = '<' then "&lt;".data
  else if c = '>' then "&gt;".data
  else if c = '"' then "&quot;".data
  else if c = aposChar then "&#x27;".data
  else [c]

/-- `_escape_html` from the source: `html.escape(x, quote=True)`. -/
def _escape_html (x : String) : String := ⟨x.data.flatMap escChar⟩

/-- Python `str.strip()` whitespace predicate (ASCII whitespace). -/
def isPyWs (c : Char) : Bool :=
  c = ' ' || c = '\t' || c = '\n' || c = '\x0d' || c = '\x0b' || c = '\x0c'

/-- Python `str.strip()`: drop whitespace from both ends. -/
def pyStrip (s : String) : String :=
  ⟨(((s.data.dropWhile isPyWs).reverse.dropWhile isPyWs).reverse)⟩

/-- `os.path.basename` for POSIX paths: the part after the last `/`. -/
def basename (p : String) : String := ((p.splitOn "/").getLast?).getD p

/-- Kind of a result child of a `<testcase>`: `junitparser`'s `Failure`,
`Error` and `Skipped` classes. -/
inductive ResultKind
  | failure
  | error
  | skipped
deriving DecidableEq

/-- A result entry of a test case: its kind plus the optional `message`
attribute and optional element text. -/
structure RawResult where
  kind : ResultKind
  message : Option String := none
  text : Option String := none
deriving DecidableEq

/-- A `<testcase>` element as exposed by `junitparser`. -/
structure RawCase where
  classname : Option String := none
  name : Option String := none
  time : Option ℚ := none
  result : List RawResult := []
deriving DecidableEq

/-- A `<testsuite>` element as exposed by `junitparser`: the optional
numeric attributes and the list of contained test cases (iterating a suite
yields its `TestCase` children, so the `isinstance(case, TestCase)` guard in
the source is always true). -/
structure RawSuite where
  name : Option String := none
  tests : Option ℤ := none
  failures : Option ℤ := none
  errors : Option ℤ := none
  skipped : Option ℤ := none
  disabled : Option ℤ := none
  time : Option ℚ := none
  cases : List RawCase := []
deriving DecidableEq

/-- `_get_test_status` from the source.  The loop returns on the first
result `r` that is a `Failure`, `Error` or `Skipped`; since every result
entry is one of those three, the first entry always decides the status. -/
def _get_test_status (case : RawCase) : String :=
  match case.result with
  | [] => "ok"
  | r :: _ =>
    match r.kind with
    | .failure => "fail"
    | .error => "err"
    | .skipped => "skip"

/-- `_get_test_message` from the source: the `message` of the first result
(`getattr(r, "message", "") or ""`), else `""`. -/
def _get_test_message (case : RawCase) : String :=
  match case.result with
  | [] => ""
  | r :: _ => r.message.getD ""

/-- `_get_test_detail` from the source: the `text` of the first result
(`getattr(r, "text", "") or ""`), else `""`. -/
def _get_test_detail (case : RawCase) : String :=
  match case.result with
  | [] => ""
  | r :: _ => r.text.getD ""

/-- `suite.name or os.path.basename(p)`: an absent or empty suite name falls
back to the base name of the input file. -/
def suiteName (p : String) (s : RawSuite) : String :=
  match s.name with
  | none => basename p
  | some n => if n = "" then basename p else n

/-- `int(x or 0)` on an optional numeric attribute: `None` and `0` both give
`0`, any other value passes through. -/
def orZero (o : Option ℤ) : ℤ := o.getD 0

/-- `int(suite.tests or len(list(suite)))`: an absent or zero `tests`
attribute falls back to the number of child cases. -/
def suiteTests (s : RawSuite) : ℤ :=
  match s.tests with
  | none => (s.cases.length : ℤ)
  | some t => if t = 0 then (s.cases.length : ℤ) else t

/-- `int(getattr(suite, "skipped", 0) or getattr(suite, "disabled", 0) or 0)`:
a falsy (`None`/`0`) `skipped` falls back to `disabled`, then to `0`. -/
def suiteSkipped (s : RawSuite) : ℤ :=
  match s.skipped with
  | none => orZero s.disabled
  | some k => if k = 0 then orZero s.disabled else k

/-- One entry of `suites_data` in `parse_files` (the spec's SuiteSummary). -/
structure SuiteSummary where
  name : String
  tests : ℤ
  failures : ℤ
  errors : ℤ
  skipped : ℤ
  time : ℚ
  file : String
deriving DecidableEq

/-- One entry of `case_rows` in `parse_files` (the spec's TestCaseRecord). -/
structure CaseRow where
  suite : String
  classname : String
  name : String
  time : ℚ
  status : String
  message : String
  detail : String
deriving DecidableEq

/-- The `totals` dictionary of `parse_files` (the spec's ReportTotals). -/
structure ReportTotals where
  suites : ℕ
  tests : ℤ
  failures : ℤ
  errors : ℤ
  skipped : ℤ
  time : ℚ
  passed : ℤ
deriving DecidableEq

/-- The dictionary returned by `parse_files`. -/
structure ParseData where
  suites : List SuiteSummary
  cases : List CaseRow
  totals : ReportTotals
deriving DecidableEq

/-- The suite-level record appended to `suites_data` (source lines 67-82). -/
def suiteRecord (p : String) (s : RawSuite) : SuiteSummary :=
  { name := suiteName p s
    tests := suiteTests s
    failures := orZero s.failures
    errors := orZero s.errors
    skipped := suiteSkipped s
    time := s.time.getD 0
    file := basename p }

/-- The case-level record appended to `case_rows` (source lines 86-94). -/
def caseRecord (sname : String) (c : RawCase) : CaseRow :=
  { suite := sname
    classname := c.classname.getD ""
    name := c.name.getD ""
    time := c.time.getD 0
    status := _get_test_status c
    message := _get_test_message c
    detail := _get_test_detail c }

/-- Pure core of `parse_files` over already-parsed files: each file is the
pair of its path and the suites `JUnitXml.fromfile` yielded for it.  The
nested loop appends one `SuiteSummary` per suite element and one `CaseRow`
per test case, in traversal order, then sums the totals. -/
def parse_files (files : List (String × List RawSuite)) : ParseData :=
  let suites_data : List SuiteSummary :=
    files.flatMap fun pf => pf.2.map (suiteRecord pf.1)
  let case_rows : List CaseRow :=
    files.flatMap fun pf =>
      pf.2.flatMap fun s => s.cases.map (caseRecord (suiteName pf.1 s))
  { suites := suites_data
    cases := case_rows
    totals :=
      { suites := suites_data.length
        tests := (suites_data.map (·.tests)).sum
        failures := (suites_data.map (·.failures)).sum
        errors := (suites_data.map (·.errors)).sum
        skipped := (suites_data.map (·.skipped)).sum
        time := (suites_data.map (·.time)).sum
        passed := (suites_data.map (·.tests)).sum - (suites_data.map (·.failures)).sum
          - (suites_data.map (·.errors)).sum - (suites_data.map (·.skipped)).sum } }

/-- A parse failure of one input path (missing / unreadable / malformed). -/
inductive ParseErr
  | fromfileFailed (path : String)
deriving DecidableEq

/-- `parse_files` with the `fromfile` side effect made explicit: the oracle
`fs` gives each path's parse outcome, and the loop aborts on the first
failing path (the raised exception propagates). -/
def parse_filesE (fs : String → Except ParseErr (List RawSuite))
    (paths : List String) : Except ParseErr ParseData :=
  (paths.mapM fun p => (fs p).map fun xs => (p, xs)).map parse_files

/-- The file-write performed by `main` on success. -/
structure WriteEvent where
  path : String
  content : String
deriving DecidableEq

/-- A fatal error of the whole run. -/
inductive RunErr
  | parse (e : ParseErr)
  | render
deriving DecidableEq

/-- Membership test used when grouping: `case["classname"] or "Default"`. -/
def effClass (c : CaseRow) : String :=
  if c.classname = "" then "Default" else c.classname

/-- The suite keys of the grouping dictionary built by `_build_main_content`
and `_build_sidebar` (insertion order = first occurrence order). -/
def structureKeys (cases : List CaseRow) : List String :=
  (cases.map (·.suite)).eraseDups

/-- All rows of one suite key, in input order (the concatenated contents of
the per-class groups of that suite, before per-class splitting). -/
def suiteCasesOf (cases : List CaseRow) (s : String) : List CaseRow :=
  cases.filter fun c => c.suite = s

/-- The class keys of one suite's inner grouping dictionary. -/
def classKeys (scases : List CaseRow) : List String :=
  (scases.map effClass).eraseDups

/-- The rows of one class group. -/
def classCasesOf (scases : List CaseRow) (k : String) : List CaseRow :=
  scases.filter fun c => effClass c = k

/-- `suite_cases` in `_build_main_content`: the per-class groups of one
suite flattened in class insertion order. -/
def suite_cases (scases : List CaseRow) : List CaseRow :=
  (classKeys scases).flatMap (classCasesOf scases)

/-- The per-section subtotal dictionaries of `_build_main_content`. -/
structure SubTotals where
  tests : ℕ
  passed : ℕ
  failures : ℕ
  errors : ℕ
  skipped : ℕ
  time : ℚ
deriving DecidableEq

/-- `suite_totals` in `_build_main_content` (source lines 176-183): counts
recomputed from the parsed case records of one suite section. -/
def suite_totals (sc : List CaseRow) : SubTotals :=
  { tests := sc.length
    passed := (sc.filter fun c => c.status = "ok").length
    failures := (sc.filter fun c => c.status = "fail").length
    errors := (sc.filter fun c => c.status = "err").length
    skipped := (sc.filter fun c => c.status = "skip").length
    time := (sc.map (·.time)).sum }

/-- `class_totals` in `_build_main_content` (source lines 207-214): same
counting, per class section. -/
def class_totals (cc : List CaseRow) : SubTotals :=
  { tests := cc.length
    passed := (cc.filter fun c => c.status = "ok").length
    failures := (cc.filter fun c => c.status = "fail").length
    errors := (cc.filter fun c => c.status = "err").length
    skipped := (cc.filter fun c => c.status = "skip").length
    time := (cc.map (·.time)).sum }

/-- Python `sorted` on strings (lexicographic by code point). -/
def sortStrings (l : List String) : List String :=
  List.insertionSort (fun a b => a ≤ b) l

/-- Python `sorted(cases, key=lambda x: x["name"])`. -/
def sortCasesByName (l : List CaseRow) : List CaseRow :=
  List.insertionSort (fun a b => a.name ≤ b.name) l
/-- Template fragment (verbatim from the source). -/
def dF0 : String := "\n      <div class=\"case-details\">\n        <div class=\"detail-head\">\n          <span class=\"pill "

/-- Template fragment (verbatim from the source). -/
def dF1 : String := "\">"

/-- Template fragment (verbatim from the source). -/
def dF2 : String := "</span>\n          <span class=\"detail-msg\">"

/-- Template fragment (verbatim from the source). -/
def dF3 : String := "</span>\n        </div>\n        <pre>"

/-- Template fragment (verbatim from the source). -/
def dF4 : String := "</pre>\n      </div>\n        "

/-- Template fragment (verbatim from the source). -/
def rF0 : String := "\n    <div class=\"row"

/-- Template fragment (verbatim from the source). -/
def rF1 : String := "\" tabindex=\"0\" aria-expanded=\"false\" \n         data-suite=\""

/-- Template fragment (verbatim from the source). -/
def rF2 : String := "\" data-classname=\""

/-- Template fragment (verbatim from the source). -/
def rF3 : String := "\" \n         data-name=\""

/-- Template fragment (verbatim from the source). -/
def rF4 : String := "\">\n      <div class=\"status "

/-- Template fragment (verbatim from the source). -/
def rF5 : String := "\">"

/-- Template fragment (verbatim from the source). -/
def rF6 : String := "</div>\n      <div class=\"nowrap\" title=\""

/-- Template fragment (verbatim from the source). -/
def rF7 : String := "\">"

/-- Template fragment (verbatim from the source). -/
def rF8 : String := "</div>\n      <div class=\"nowrap\" title=\""

/-- Template fragment (verbatim from the source). -/
def rF9 : String := "\">"

/-- Template fragment (verbatim from the source). -/
def rF10 : String := "</div>\n      <div class=\"nowrap\" title=\""

/-- Template fragment (verbatim from the source). -/
def rF11 : String := "\">"

/-- Template fragment (verbatim from the source). -/
def rF12 : String := "</div>\n      <div>"

/-- Template fragment (verbatim from the source). -/
def rF13 : String := "</div>\n      "

/-- Template fragment (verbatim from the source). -/
def rF14 : String := "\n    </div>\n    "

/-- Template fragment (verbatim from the source). -/
def mF0_0 : String := "\n    <div class=\"suite-section\" data-suite=\""

/-- Template fragment (verbatim from the source). -/
def mF0_1 : String := "\">\n      <div class=\"suite-header\" data-type=\"suite\" data-suite=\""

/-- Template fragment (verbatim from the source). -/
def mF0_2 : String := "\">\n        <div class=\"suite-title\">\n          <span class=\"collapse-icon\">‚ñº</span>\n          <span class=\"item-icon\">üìÅ</span>\n          <span class=\"item-text\">"

/-- Template fragment (verbatim from the source). -/
def mF0_3 : String := "</span>\n        </div>\n        <div class=\"suite-summary\">\n          <span class=\"pill\">Tests: "

/-- Template fragment (verbatim from the source). -/
def mF0_4 : String := "</span>\n          <span class=\"pill ok\">PASS: "

/-- Template fragment (verbatim from the source). -/
def mF0_5 : String := "</span>\n          <span class=\"pill fail\">FAIL: "

/-- Template fragment (verbatim from the source). -/
def mF0_6 : String := "</span>\n          <span class=\"pill err\">ERROR: "

/-- Template fragment (verbatim from the source). -/
def mF0_7 : String := "</span>\n          <span class=\"pill skip\">SKIP: "

/-- Template fragment (verbatim from the source). -/
def mF0_8 : String := "</span>\n          <span class=\"pill\">Time: "

/-- Template fragment (verbatim from the source). -/
def mF0_9 : String := "</span>\n        </div>\n      </div>\n      <div class=\"suite-content\">\n"

/-- Template fragment (verbatim from the source). -/
def mF1_0 : String := "\n        <div class=\"class-section\" data-suite=\""

/-- Template fragment (verbatim from the source). -/
def mF1_1 : String := "\" data-classname=\""

/-- Template fragment (verbatim from the source). -/
def mF1_2 : String := "\">\n          <div class=\"class-header\" data-type=\"class\" data-suite=\""

/-- Template fragment (verbatim from the source). -/
def mF1_3 : String := "\" data-classname=\""

/-- Template fragment (verbatim from the source). -/
def mF1_4 : String := "\">\n            <div class=\"class-title\">\n              <span class=\"collapse-icon\">‚ñº</span>\n              <span class=\"item-icon\">üì¶</span>\n              <span class=\"item-text\">"

/-- Template fragment (verbatim from the source). -/
def mF1_5 : String := "</span>\n            </div>\n            <div class=\"class-summary\">\n              <span class=\"pill\">Tests: "

/-- Template fragment (verbatim from the source). -/
def mF1_6 : String := "</span>\n              <span class=\"pill ok\">PASS: "

/-- Template fragment (verbatim from the source). -/
def mF1_7 : String := "</span>\n              <span class=\"pill fail\">FAIL: "

/-- Template fragment (verbatim from the source). -/
def mF1_8 : String := "</span>\n              <span class=\"pill err\">ERROR: "

/-- Template fragment (verbatim from the source). -/
def mF1_9 : String := "</span>\n              <span class=\"pill skip\">SKIP: "

/-- Template fragment (verbatim from the source). -/
def mF1_10 : String := "</span>\n              <span class=\"pill\">Time: "

/-- Template fragment (verbatim from the source). -/
def mF1_11 : String := "</span>\n            </div>\n          </div>\n          <div class=\"class-content\">\n            <div class=\"class-grid\">\n              <div>Status</div>\n              <div>TestName</div>\n              <div>Category / Suite</div>\n              <div>SuiteName</div>\n              <div>Elapse Time</div>\n            </div>\n"

/-- Template fragment (verbatim from the source). -/
def mF3_0 : String := "\n          </div>\n        </div>\n"

/-- Template fragment (verbatim from the source). -/
def mF4_0 : String := "\n      </div>\n    </div>\n"

/-- Template fragment (verbatim from the source). -/
def sF0_0 : String := "<div class=\"sidebar\">\n"

/-- Template fragment (verbatim from the source). -/
def sF1_0 : String := "<div class=\"sidebar-header\">\n"

/-- Template fragment (verbatim from the source). -/
def sF2_0 : String := "<div class=\"sidebar-title\">Test Structure</div>\n"

/-- Template fragment (verbatim from the source). -/
def sF3_0 : String := "<div class=\"sidebar-search\">\n"

/-- Template fragment (verbatim from the source). -/
def sF4_0 : String := "<input type=\"search\" placeholder=\"Search "

/-- Template fragment (verbatim from the source). -/
def sF4_1 : String := "...\" />\n"

/-- Template fragment (verbatim from the source). -/
def sF5_0 : String := "</div>\n"

/-- Template fragment (verbatim from the source). -/
def sF6_0 : String := "<div class=\"sidebar-content\">\n"

/-- Template fragment (verbatim from the source). -/
def sF7_0 : String := "<div class=\"sidebar-item suite-item\" data-suite=\""

/-- Template fragment (verbatim from the source). -/
def sF7_1 : String := "\">\n"

/-- Template fragment (verbatim from the source). -/
def sF8_0 : String := "  <div class=\"sidebar-label\" data-type=\"suite\" data-suite=\""

/-- Template fragment (verbatim from the source). -/
def sF8_1 : String := "\">\n"

/-- Template fragment (verbatim from the source). -/
def sF9_0 : String := "    <span class=\"collapse-icon\">‚ñº</span>\n"

/-- Template fragment (verbatim from the source). -/
def sF10_0 : String := "    <span class=\"item-icon\">üìÅ</span>\n"

/-- Template fragment (verbatim from the source). -/
def sF11_0 : String := "    <span class=\"item-text\">"

/-- Template fragment (verbatim from the source). -/
def sF11_1 : String := "</span>\n"

/-- Template fragment (verbatim from the source). -/
def sF12_0 : String := "  </div>\n"

/-- Template fragment (verbatim from the source). -/
def sF13_0 : String := "  <div class=\"sidebar-children suite-children\">\n"

/-- Template fragment (verbatim from the source). -/
def sF14_0 : String := "    <div class=\"sidebar-item class-item\" data-suite=\""

/-- Template fragment (verbatim from the source). -/
def sF14_1 : String := "\" data-classname=\""

/-- Template fragment (verbatim from the source). -/
def sF14_2 : String := "\">\n"

/-- Template fragment (verbatim from the source). -/
def sF15_0 : String := "      <div class=\"sidebar-label\" data-type=\"class\" data-suite=\""

/-- Template fragment (verbatim from the source). -/
def sF15_1 : String := "\" data-classname=\""

/-- Template fragment (verbatim from the source). -/
def sF15_2 : String := "\">\n"

/-- Template fragment (verbatim from the source). -/
def sF16_0 : String := "        <span class=\"collapse-icon\">‚ñº</span>\n"

/-- Template fragment (verbatim from the source). -/
def sF17_0 : String := "        <span class=\"item-icon\">üì¶</span>\n"

/-- Template fragment (verbatim from the source). -/
def sF18_0 : String := "        <span class=\"item-text\">"

/-- Template fragment (verbatim from the source). -/
def sF18_1 : String := "</span>\n"

/-- Template fragment (verbatim from the source). -/
def sF19_0 : String := "      </div>\n"

/-- Template fragment (verbatim from the source). -/
def sF20_0 : String := "      <div class=\"sidebar-children class-children\">\n"

/-- Template fragment (verbatim from the source). -/
def sF21_0 : String := "        <div class=\"sidebar-item case-item\" data-suite=\""

/-- Template fragment (verbatim from the source). -/
def sF21_1 : String := "\" data-classname=\""

/-- Template fragment (verbatim from the source). -/
def sF21_2 : String := "\" data-name=\""

/-- Template fragment (verbatim from the source). -/
def sF21_3 : String := "\">\n"

/-- Template fragment (verbatim from the source). -/
def sF22_0 : String := "          <div class=\"sidebar-label\" data-type=\"case\" data-suite=\""

/-- Template fragment (verbatim from the source). -/
def sF22_1 : String := "\" data-classname=\""

/-- Template fragment (verbatim from the source). -/
def sF22_2 : String := "\" data-name=\""

/-- Template fragment (verbatim from the source). -/
def sF22_3 : String := "\">\n"

/-- Template fragment (verbatim from the source). -/
def sF23_0 : String := "            <span class=\"item-icon\">üß™</span>\n"

/-- Template fragment (verbatim from the source). -/
def sF24_0 : String := "            <span class=\"item-text\">"

/-- Template fragment (verbatim from the source). -/
def sF24_1 : String := "</span>\n"

/-- Template fragment (verbatim from the source). -/
def sF25_0 : String := "          </div>\n"

/-- Template fragment (verbatim from the source). -/
def sF26_0 : String := "        </div>\n"

/-- Template fragment (verbatim from the source). -/
def sF27_0 : String := "      </div>\n"

/-- Template fragment (verbatim from the source). -/
def sF28_0 : String := "    </div>\n"

/-- Template fragment (verbatim from the source). -/
def sF29_0 : String := "  </div>\n"

/-- Template fragment (verbatim from the source). -/
def sF30_0 : String := "</div>\n"

/-- Template fragment (verbatim from the source). -/
def sF31_0 : String := "</div>\n"

/-- Template fragment (verbatim from the source). -/
def sF32_0 : String := "</div>\n"

/-- Template fragment (verbatim from the source). -/
def hF0 : String := "<!doctype html>\n<html lang=\"zh-Hant\">\n<head>\n<meta charset=\"utf-8\" />\n<meta name=\"viewport\" content=\"width=device-width,initial-scale=1\" />\n<title>"

/-- Template fragment (verbatim from the source). -/
def hF1_p0 : String := "</title>\n<style>\n  :root \x7b --ok:#2e7d32; --skip:#8d6e63; --fail:#c62828; --err:#6a1b9a; --fg:#1f2937; --muted:#6b7280; \x7d\n  body \x7b font-family: ui-sans-serif, system-ui, -apple-system, \"Noto Sans TC\", Arial, \"Segoe UI\"; color: var(--fg); margin: 0; \x7d\n\n  /* Layout */\n  .container \x7b\n    display: flex !important;\n    min-height: 100vh;\n    flex-direction: row !important;\n    width: 100%;\n    background: #f0f0f0;\n  \x7d\n"

/-- Template fragment (verbatim from the source). -/
def hF1_p1 : String := "  .sidebar \x7b\n    width: 300px !important;\n    min-width: 300px !important;\n    background: #f8fafc;\n    border-right: 2px solid #e2e8f0;\n    overflow-y: auto;\n    flex-shrink: 0 !important;\n    flex-grow: 0 !important;\n  \x7d\n  .main-content \x7b\n    flex: 1 !important;\n    flex-grow: 1 !important;\n    padding: 24px;\n    overflow-x: auto;\n    min-width: 0;\n    background: #ffffff;\n  \x7d\n\n  /* Sidebar Styles */\n"

/-- Template fragment (verbatim from the source). -/
def hF1_p2 : String := "  .sidebar-header \x7b\n    padding: 16px;\n    border-bottom: 1px solid #e2e8f0;\n    background: #f8fafc;\n  \x7d\n  .sidebar-title \x7b\n    font-weight: 600;\n    font-size: 16px;\n    color: #334155;\n    margin-bottom: 12px;\n  \x7d\n  .sidebar-search \x7b\n    position: relative;\n  \x7d\n  .sidebar-search input \x7b\n    width: 100%;\n    padding: 10px 12px;\n    border: 1px solid #d1d5db;\n    border-radius: 8px;\n    background: #fff;\n"

/-- Template fragment (verbatim from the source). -/
def hF1_p3 : String := "    font-size: 13px;\n    color: #374151;\n    transition: all 0.2s ease;\n    box-sizing: border-box;\n    font-family: inherit;\n  \x7d\n  .sidebar-search input:focus \x7b\n    border-color: #2563eb;\n    box-shadow: 0 0 0 3px rgba(37,99,235,0.15);\n    outline: none;\n    background: #fafbfc;\n  \x7d\n  .sidebar-search input::placeholder \x7b\n    color: #9ca3af;\n    font-style: italic;\n  \x7d\n  .sidebar-content \x7b padding: 8px; \x7d\n"

/-- Template fragment (verbatim from the source). -/
def hF1_p4 : String := "  .sidebar-item \x7b margin: 2px 0; \x7d\n  .sidebar-label \x7b\n    display: flex;\n    align-items: center;\n    padding: 8px 12px;\n    cursor: pointer;\n    border-radius: 6px;\n    font-size: 13px;\n    transition: all 0.2s ease;\n    user-select: none;\n    border: 1px solid transparent;\n  \x7d\n  .sidebar-label:hover \x7b\n    background: #f1f5f9;\n    border-color: #e2e8f0;\n  \x7d\n  .sidebar-label:active \x7b\n    background: #e2e8f0;\n"

/-- Template fragment (verbatim from the source). -/
def hF1_p5 : String := "    transform: translateY(1px);\n  \x7d\n\n  .collapse-icon \x7b\n    width: 16px;\n    height: 16px;\n    display: flex;\n    align-items: center;\n    justify-content: center;\n    font-size: 10px;\n    color: #64748b;\n    margin-right: 8px;\n    transition: transform 0.2s ease;\n    flex-shrink: 0;\n  \x7d\n  .sidebar-item.collapsed .collapse-icon \x7b\n    transform: rotate(-90deg);\n  \x7d\n  .case-item .collapse-icon \x7b\n"

/-- Template fragment (verbatim from the source). -/
def hF1_p6 : String := "    visibility: hidden;\n  \x7d\n\n  .item-icon \x7b\n    margin-right: 8px;\n    font-size: 14px;\n    flex-shrink: 0;\n  \x7d\n  .item-text \x7b\n    flex: 1;\n    overflow: hidden;\n    text-overflow: ellipsis;\n    white-space: nowrap;\n    font-weight: 500;\n  \x7d\n\n  .sidebar-children \x7b\n    margin-left: 20px;\n    overflow: hidden;\n    transition: all 0.3s cubic-bezier(0.4, 0, 0.2, 1);\n    border-left: 2px solid #e2e8f0;\n"

/-- Template fragment (verbatim from the source). -/
def hF1_p7 : String := "    margin-top: 4px;\n    padding-left: 12px;\n  \x7d\n  .sidebar-item.collapsed .sidebar-children \x7b\n    max-height: 0;\n    opacity: 0;\n    margin-top: 0;\n    padding-top: 0;\n    padding-bottom: 0;\n  \x7d\n\n  .suite-item .sidebar-label \x7b\n    font-weight: 600;\n    color: #1e40af;\n    background: linear-gradient(135deg, #eff6ff 0%, #dbeafe 100%);\n    border-color: #bfdbfe;\n  \x7d\n  .suite-item .sidebar-label:hover \x7b\n"

/-- Template fragment (verbatim from the source). -/
def hF1_p8 : String := "    background: linear-gradient(135deg, #dbeafe 0%, #bfdbfe 100%);\n    border-color: #93c5fd;\n  \x7d\n\n  .class-item .sidebar-label \x7b\n    font-weight: 600;\n    color: #059669;\n    background: linear-gradient(135deg, #f0fdf4 0%, #dcfce7 100%);\n    border-color: #bbf7d0;\n  \x7d\n  .class-item .sidebar-label:hover \x7b\n    background: linear-gradient(135deg, #dcfce7 0%, #bbf7d0 100%);\n    border-color: #86efac;\n  \x7d\n\n"

/-- Template fragment (verbatim from the source). -/
def hF1_p9 : String := "  .case-item .sidebar-label \x7b\n    color: #374151;\n    padding-left: 28px;\n    background: #fff;\n    border-color: #f1f5f9;\n  \x7d\n  .case-item .sidebar-label:hover \x7b\n    background: #f8fafc;\n    border-color: #e2e8f0;\n  \x7d\n\n  /* Main Content Styles */\n  h1 \x7b font-size: 20px; margin: 0 0 12px; \x7d\n  .pill \x7b padding:4px 10px; border-radius:999px; font-size:12px; background:#eef2ff; \x7d\n"

/-- Template fragment (verbatim from the source). -/
def hF1_p10 : String := "  .pill.ok \x7b background:#e8f5e9; color:var(--ok); \x7d\n  .pill.fail \x7b background:#ffebee; color:var(--fail); \x7d\n  .pill.err \x7b background:#f3e5f5; color:var(--err); \x7d\n  .pill.skip \x7b background:#efebe9; color:var(--skip); \x7d\n  .muted \x7b color: var(--muted); font-size:12px; \x7d\n\n  /* Suite and Class Section Styles */\n  .suite-section \x7b\n    margin-bottom: 24px;\n    border: 1px solid #e2e8f0;\n    border-radius: 12px;\n"

/-- Template fragment (verbatim from the source). -/
def hF1_p11 : String := "    overflow: hidden;\n    background: #ffffff;\n    box-shadow: 0 1px 3px rgba(0,0,0,0.1);\n  \x7d\n\n  .suite-header \x7b\n    display: flex;\n    justify-content: space-between;\n    align-items: center;\n    padding: 16px 20px;\n    background: linear-gradient(135deg, #eff6ff 0%, #dbeafe 100%);\n    border-bottom: 1px solid #bfdbfe;\n    cursor: pointer;\n    transition: all 0.2s ease;\n  \x7d\n  .suite-header:hover \x7b\n"

/-- Template fragment (verbatim from the source). -/
def hF1_p12 : String := "    background: linear-gradient(135deg, #dbeafe 0%, #bfdbfe 100%);\n  \x7d\n\n  .suite-title \x7b\n    display: flex;\n    align-items: center;\n    font-weight: 600;\n    font-size: 16px;\n    color: #1e40af;\n  \x7d\n\n  .suite-summary \x7b\n    display: flex;\n    gap: 8px;\n    flex-wrap: wrap;\n  \x7d\n\n  .suite-content \x7b\n    overflow: hidden;\n    transition: all 0.3s cubic-bezier(0.4, 0, 0.2, 1);\n  \x7d\n"

/-- Template fragment (verbatim from the source). -/
def hF1_p13 : String := "  .suite-section.collapsed .suite-content \x7b\n    max-height: 0;\n    opacity: 0;\n    padding-top: 0;\n    padding-bottom: 0;\n  \x7d\n\n  .class-section \x7b\n    margin: 16px;\n    border: 1px solid #e2e8f0;\n    border-radius: 8px;\n    overflow: hidden;\n    background: #f8fafc;\n  \x7d\n\n  .class-header \x7b\n    display: flex;\n    justify-content: space-between;\n    align-items: center;\n    padding: 12px 16px;\n"

/-- Template fragment (verbatim from the source). -/
def hF1_p14 : String := "    background: linear-gradient(135deg, #f0fdf4 0%, #dcfce7 100%);\n    border-bottom: 1px solid #bbf7d0;\n    cursor: pointer;\n    transition: all 0.2s ease;\n  \x7d\n  .class-header:hover \x7b\n    background: linear-gradient(135deg, #dcfce7 0%, #bbf7d0 100%);\n  \x7d\n\n  .class-title \x7b\n    display: flex;\n    align-items: center;\n    font-weight: 600;\n    font-size: 14px;\n    color: #059669;\n  \x7d\n\n  .class-summary \x7b\n"

/-- Template fragment (verbatim from the source). -/
def hF1_p15 : String := "    display: flex;\n    gap: 6px;\n    flex-wrap: wrap;\n  \x7d\n\n  .class-content \x7b\n    overflow: hidden;\n    transition: all 0.3s cubic-bezier(0.4, 0, 0.2, 1);\n  \x7d\n  .class-section.collapsed .class-content \x7b\n    max-height: 0;\n    opacity: 0;\n    padding-top: 0;\n    padding-bottom: 0;\n  \x7d\n\n  .suite-grid, .class-grid \x7b\n    display: grid;\n    grid-template-columns: 80px 2fr 1fr 1fr 100px;\n    gap: 8px;\n"

/-- Template fragment (verbatim from the source). -/
def hF1_p16 : String := "    margin: 12px 20px 4px;\n    font-weight: 600;\n    font-size: 13px;\n    color: #374151;\n    padding: 8px 12px;\n    background: #f9fafb;\n    border-radius: 6px;\n  \x7d\n\n  .row \x7b\n    display: grid;\n    grid-template-columns: 80px 2fr 1fr 1fr 100px;\n    gap: 8px;\n    padding: 10px 12px;\n    border-bottom: 1px solid #e5e7eb;\n    align-items: start;\n    margin: 0 20px;\n    background: #ffffff;\n    border-radius: 4px;\n"

/-- Template fragment (verbatim from the source). -/
def hF1_p17 : String := "    margin-bottom: 4px;\n  \x7d\n  .row:hover \x7b background:#f9fafb; \x7d\n  .row.highlighted \x7b background: #fef3c7; border-left: 3px solid #f59e0b; \x7d\n  .status.ok \x7b color:var(--ok); font-weight:600; \x7d\n  .status.fail \x7b color:var(--fail); font-weight:600; \x7d\n  .status.err \x7b color:var(--err); font-weight:600; \x7d\n  .status.skip \x7b color:var(--skip); font-weight:600; \x7d\n"

/-- Template fragment (verbatim from the source). -/
def hF1_p18 : String := "  details \x7b grid-column: 1 / -1; background:#fff; border:1px solid #e5e7eb; border-radius:8px; padding:8px 10px; \x7d\n  details pre \x7b overflow:auto; white-space:pre-wrap; word-break:break-word; margin:10px 0 0; \x7d\n  .summary \x7b display:flex; gap:8px; align-items:center; flex-wrap:wrap; \x7d\n  .totals \x7b display:flex; gap:8px; flex-wrap:wrap; \x7d\n  .small \x7b font-size:12px; \x7d\n"

/-- Template fragment (verbatim from the source). -/
def hF1_p19 : String := "  .nowrap \x7b white-space:nowrap; overflow:hidden; text-overflow:ellipsis; \x7d\n  .controls \x7b display:flex; gap:8px; flex-wrap:wrap; align-items:center; margin: 8px 0 16px; \x7d\n\n  /* Search and Filter Styles */\n  input[type=\"search\"] \x7b\n    padding: 6px 10px;\n    border: 1px solid #d1d5db;\n    border-radius: 6px;\n    background-color: #fff;\n    font-family: inherit;\n    font-size: 14px;\n    color: #374151;\n"

/-- Template fragment (verbatim from the source). -/
def hF1_p20 : String := "    line-height: 1.5;\n    transition: border-color 0.2s, box-shadow 0.2s;\n  \x7d\n\n  input[type=\"search\"]:focus \x7b\n    border-color: #2563eb;\n    box-shadow: 0 0 0 2px rgba(37,99,235,0.2);\n    outline: none;\n  \x7d\n\n  input[type=\"search\"]:hover \x7b\n    border-color: #9ca3af;\n  \x7d\n\n  select \x7b\n    padding: 6px 28px 6px 10px;\n    border: 1px solid #d1d5db;\n    border-radius: 6px;\n    background-color: #fff;\n"

/-- Template fragment (verbatim from the source). -/
def hF1_p21 : String := "    font-family: inherit;\n    font-size: 14px;\n    color: #374151;\n    line-height: 1.5;\n    appearance: none;\n    -webkit-appearance: none;\n    -moz-appearance: none;\n    background-image: url(\"data:image/svg+xml;base64,PHN2ZyBmaWxsPSJub25lIiBzdHJva2U9IiM2YjcyODAiIHN0cm9rZS13aWR0aD0iMiIgdmlld0JveD0iMCAwIDI0IDI0IiB4bWxucz0iaHR0cDovL3d3dy53My5vcmcvMjAwMC9zdmciPjxwYXRoIGQ9Ik02IDlsNiA2IDYtNiIvPjwvc3ZnPg==\");\n"

/-- Template fragment (verbatim from the source). -/
def hF1_p22 : String := "    background-repeat: no-repeat;\n    background-position: right 8px center;\n    background-size: 16px;\n    transition: border-color 0.2s, box-shadow 0.2s;\n  \x7d\n\n  select:focus \x7b\n    border-color: #2563eb;\n    box-shadow: 0 0 0 2px rgba(37,99,235,0.2);\n    outline: none;\n  \x7d\n\n  select:hover \x7b\n    border-color: #9ca3af;\n  \x7d\n\n  select option \x7b\n    padding: 6px 10px;\n    font-size: 14px;\n  \x7d\n\n  select option:hover \x7b\n"

/-- Template fragment (verbatim from the source). -/
def hF1_p23 : String := "    background-color: #f3f4f6;\n  \x7d\n\n  /* Row Details */\n  .row.has-details \x7b cursor: pointer; \x7d\n  .row.has-details:focus \x7b outline: 2px solid #c7d2fe; outline-offset: 2px; \x7d\n  .case-details \x7b display:none; grid-column: 1 / -1; background:#fff; border:1px solid #e5e7eb; border-radius:8px; padding:10px 12px; margin-top:8px; \x7d\n  .row.expanded .case-details \x7b display:block; \x7d\n"

/-- Template fragment (verbatim from the source). -/
def hF1_p24 : String := "  .case-details pre \x7b overflow:auto; white-space:pre-wrap; word-break:break-word; margin:10px 0 0; \x7d\n  .detail-head \x7b display:flex; gap:8px; align-items:center; flex-wrap:wrap; font-weight:600; \x7d\n  .detail-msg \x7b color:#374151; \x7d\n\n  /* Responsive */\n  @media (max-width: 768px) \x7b\n    .container \x7b flex-direction: column; \x7d\n    .sidebar \x7b width: 100%; max-height: 200px; \x7d\n    .main-content \x7b padding: 16px; \x7d\n"

/-- Template fragment (verbatim from the source). -/
def hF1_p25 : String := "    .suite-header, .class-header \x7b\n      flex-direction: column;\n      align-items: flex-start;\n      gap: 8px;\n    \x7d\n    .suite-summary, .class-summary \x7b\n      justify-content: flex-start;\n    \x7d\n  \x7d\n</style>\n</head>\n<body>\n  <div class=\"container\">\n    "

/-- Template fragment (verbatim from the source), concatenated from its pieces. -/
def hF1 : String := hF1_p0 ++ hF1_p1 ++ hF1_p2 ++ hF1_p3 ++ hF1_p4 ++ hF1_p5 ++ hF1_p6 ++ hF1_p7 ++ hF1_p8 ++ hF1_p9 ++ hF1_p10 ++ hF1_p11 ++ hF1_p12 ++ hF1_p13 ++ hF1_p14 ++ hF1_p15 ++ hF1_p16 ++ hF1_p17 ++ hF1_p18 ++ hF1_p19 ++ hF1_p20 ++ hF1_p21 ++ hF1_p22 ++ hF1_p23 ++ hF1_p24 ++ hF1_p25

/-- Template fragment (verbatim from the source). -/
def hF2 : String := "\n\n  </div>\n  <div class=\"main-content\">\n    <h1>"

/-- Template fragment (verbatim from the source). -/
def hF3 : String := "</h1>\n    <div class=\"muted small\">Generate Time : "

/-- Template fragment (verbatim from the source). -/
def hF4 : String := "</div>\n\n    <div class=\"totals\" style=\"margin-top:10px;\">\n      <span class=\"pill\">Suite : "

/-- Template fragment (verbatim from the source). -/
def hF5 : String := "</span>\n      <span class=\"pill\">Test : "

/-- Template fragment (verbatim from the source). -/
def hF6 : String := "</span>\n      <span class=\"pill ok\">PASS : "

/-- Template fragment (verbatim from the source). -/
def hF7 : String := "</span>\n      <span class=\"pill fail\">FAIL : "

/-- Template fragment (verbatim from the source). -/
def hF8 : String := "</span>\n      <span class=\"pill err\">ERROR : "

/-- Template fragment (verbatim from the source). -/
def hF9 : String := "</span>\n      <span class=\"pill skip\">SKIP : "

/-- Template fragment (verbatim from the source). -/
def hF10 : String := "</span>\n      <span class=\"pill\">Elapse Time : "

/-- Template fragment (verbatim from the source). -/
def hF11_p0 : String := "</span>\n    </div>\n    <div class=\"controls\">\n      <input id=\"search\" type=\"search\" placeholder=\"Search : Category/Name/Message...\" />\n      <select id=\"status-filter\" title=\"Status Filter\">\n        <option value=\"\">ALL</option>\n        <option value=\"ok\">PASS</option>\n        <option value=\"fail\">FAIL</option>\n        <option value=\"err\">ERROR</option>\n        <option value=\"skip\">SKIP</option>\n      </select>\n"

/-- Template fragment (verbatim from the source). -/
def hF11_p1 : String := "      <select id=\"sort\" title=\"Sort\">\n        <option value=\"status\">Status</option>\n        <option value=\"time\">Elapse Time(Long -> Short)</option>\n        <option value=\"name\">TestName</option>\n      </select>\n    </div>\n\n    <div id=\"content\">\n      "

/-- Template fragment (verbatim from the source), concatenated from its pieces. -/
def hF11 : String := hF11_p0 ++ hF11_p1

/-- Template fragment (verbatim from the source). -/
def hF12_p0 : String := "\n    </div>\n  </div>\n\n<script>\n(function()\x7b\n  const searchEl = document.getElementById(\x27search\x27);\n  const filterEl = document.getElementById(\x27status-filter\x27);\n  const sortEl = document.getElementById(\x27sort\x27);\n  const contentEl = document.getElementById(\x27content\x27);\n\n  // collect all rows into an in-memory array for filtering/sorting\n  const rows = [...contentEl.querySelectorAll(\x27.row\x27)].map(r => \x7b\n"

/-- Template fragment (verbatim from the source). -/
def hF12_p1 : String := "    const cells = r.querySelectorAll(\x27:scope > div\x27);\n    const container = r.closest(\x27.class-content\x27);\n    const statusKey = labelToKey(cells[0].textContent.trim());\n    return \x7b\n      el: r,\n      container: container,\n      statusKey: statusKey,\n      status: cells[0].textContent.trim(),\n      name: cells[1].textContent.trim().toLowerCase(),\n      classname: cells[2].textContent.trim().toLowerCase(),\n"

/-- Template fragment (verbatim from the source). -/
def hF12_p2 : String := "      suite: cells[3].textContent.trim().toLowerCase(),\n      time: parseFloat(cells[4].textContent.trim().replace(\x27s\x27,\x27\x27)) || 0\n    \x7d;\n  \x7d);\n\n  function labelToKey(s)\x7b return s===\x27PASS\x27?\x27ok\x27: s===\x27FAIL\x27?\x27fail\x27 : s===\x27ERROR\x27?\x27err\x27 : s===\x27SKIP\x27?\x27skip\x27:\x27\x27; \x7d\n\n  function apply()\x7b\n    const q = (searchEl.value || \x27\x27).trim().toLowerCase();\n    const statusFilter = filterEl.value;\n    const sortBy = sortEl.value;\n\n"

/-- Template fragment (verbatim from the source). -/
def hF12_p3 : String := "    // switch\n    rows.forEach(r => \x7b\n      const inSearch = !q || (r.name.includes(q) || r.classname.includes(q) || r.suite.includes(q) || (r.el.textContent || \x27\x27).toLowerCase().includes(q));\n      const inStatus = !statusFilter || r.statusKey === statusFilter;\n      r.el.style.display = (inSearch && inStatus) ? \x27\x27 : \x27none\x27;\n    \x7d);\n\n    // aquire\n    const containers = new Set(rows.map(r => r.container));\n\n"

/-- Template fragment (verbatim from the source). -/
def hF12_p4 : String := "    // sort in vis\n    containers.forEach(container => \x7b\n      if (!container) return;\n\n      // gain rows\n      const visibleRows = rows.filter(r => r.container === container && r.el.style.display !== \x27none\x27);\n\n      // sort\n      visibleRows.sort((a, b) => \x7b\n        if (sortBy === \x27time\x27) return (b.time || 0) - (a.time || 0);\n        if (sortBy === \x27name\x27) return (a.name || \x27\x27).localeCompare(b.name || \x27\x27);\n"

/-- Template fragment (verbatim from the source). -/
def hF12_p5 : String := "        // status sortÔºöERROR(0) < FAIL(1) < SKIP(2) < PASS(3)\n        const statusOrder = \x7b \x27err\x27: 0, \x27fail\x27: 1, \x27skip\x27: 2, \x27ok\x27: 3 \x7d;\n        return (statusOrder[a.statusKey] - statusOrder[b.statusKey]) || (b.time - a.time);\n      \x7d);\n\n      // reduce reflow\n      const fragment = document.createDocumentFragment();\n      visibleRows.forEach(row => fragment.appendChild(row.el));\n"

/-- Template fragment (verbatim from the source). -/
def hF12_p6 : String := "      container.appendChild(fragment);\n    \x7d);\n\n    // collapse\n    document.querySelectorAll(\x27.class-section\x27).forEach(classSection => \x7b\n      const hasVisibleRows = classSection.querySelectorAll(\x27.row[style*=\"display: none\"]\x27).length <\n                            classSection.querySelectorAll(\x27.row\x27).length;\n\n      if (hasVisibleRows) \x7b\n        classSection.style.display = \x27\x27;\n"

/-- Template fragment (verbatim from the source). -/
def hF12_p7 : String := "        classSection.classList.remove(\x27collapsed\x27);\n      \x7d else \x7b\n        classSection.style.display = \x27none\x27;\n      \x7d\n    \x7d);\n\n    // suite-section vis\n    document.querySelectorAll(\x27.suite-section\x27).forEach(suiteSection => \x7b\n      const hasVisibleClassSections = suiteSection.querySelectorAll(\x27.class-section[style*=\"display: none\"]\x27).length <\n"

/-- Template fragment (verbatim from the source). -/
def hF12_p8 : String := "                                     suiteSection.querySelectorAll(\x27.class-section\x27).length;\n\n      if (hasVisibleClassSections) \x7b\n        suiteSection.style.display = \x27\x27;\n        suiteSection.classList.remove(\x27collapsed\x27);\n      \x7d else \x7b\n        suiteSection.style.display = \x27none\x27;\n      \x7d\n    \x7d);\n  \x7d\n\n  function bindRowToggle() \x7b\n    const rowEls = contentEl.querySelectorAll(\x27.row.has-details\x27);\n"

/-- Template fragment (verbatim from the source). -/
def hF12_p9 : String := "    rowEls.forEach(r => \x7b\n      const toggle = () => \x7b\n        const expanded = r.classList.toggle(\x27expanded\x27);\n        r.setAttribute(\x27aria-expanded\x27, expanded ? \x27true\x27 : \x27false\x27);\n      \x7d;\n      r.addEventListener(\x27click\x27, (e) => \x7b\n        if (e.target.closest(\x27.case-details\x27)) return;\n        toggle();\n      \x7d);\n      r.addEventListener(\x27keydown\x27, (e) => \x7b\n        if (e.key === \x27Enter\x27 || e.key === \x27 \x27) \x7b\n"

/-- Template fragment (verbatim from the source). -/
def hF12_p10 : String := "          e.preventDefault();\n          toggle();\n        \x7d\n      \x7d);\n    \x7d);\n  \x7d\n\n  function bindMainContentCollapse() \x7b\n    // Handle suite collapse/expand\n    const suiteHeaders = document.querySelectorAll(\x27.suite-header\x27);\n    suiteHeaders.forEach(header => \x7b\n      header.addEventListener(\x27click\x27, (e) => \x7b\n        e.stopPropagation();\n        const suiteSection = header.closest(\x27.suite-section\x27);\n"

/-- Template fragment (verbatim from the source). -/
def hF12_p11 : String := "        suiteSection.classList.toggle(\x27collapsed\x27);\n      \x7d);\n    \x7d);\n\n    // Handle class collapse/expand\n    const classHeaders = document.querySelectorAll(\x27.class-header\x27);\n    classHeaders.forEach(header => \x7b\n      header.addEventListener(\x27click\x27, (e) => \x7b\n        e.stopPropagation();\n        const classSection = header.closest(\x27.class-section\x27);\n        classSection.classList.toggle(\x27collapsed\x27);\n      \x7d);\n"

/-- Template fragment (verbatim from the source). -/
def hF12_p12 : String := "    \x7d);\n  \x7d\n\n  function bindSidebarNavigation() \x7b\n    const sidebarItems = document.querySelectorAll(\x27.sidebar-item\x27);\n\n    sidebarItems.forEach(item => \x7b\n      item.addEventListener(\x27click\x27, (e) => \x7b\n        e.stopPropagation();\n\n        // Handle collapse/expand for suite and class items\n        const label = e.target.closest(\x27.sidebar-label\x27);\n"

/-- Template fragment (verbatim from the source). -/
def hF12_p13 : String := "        if (label && (label.getAttribute(\x27data-type\x27) === \x27suite\x27 || label.getAttribute(\x27data-type\x27) === \x27class\x27)) \x7b\n          const parentItem = label.closest(\x27.sidebar-item\x27);\n          parentItem.classList.toggle(\x27collapsed\x27);\n          return;\n        \x7d\n\n        // Handle navigation for all items\n        // Remove previous highlights\n        document.querySelectorAll(\x27.row.highlighted\x27).forEach(row => \x7b\n"

/-- Template fragment (verbatim from the source). -/
def hF12_p14 : String := "          row.classList.remove(\x27highlighted\x27);\n        \x7d);\n\n        const suite = item.getAttribute(\x27data-suite\x27);\n        const classname = item.getAttribute(\x27data-classname\x27);\n        const name = item.getAttribute(\x27data-name\x27);\n\n        // Find matching rows\n        document.querySelectorAll(\x27.row\x27).forEach(row => \x7b\n          const rowSuite = row.getAttribute(\x27data-suite\x27);\n"

/-- Template fragment (verbatim from the source). -/
def hF12_p15 : String := "          const rowClassname = row.getAttribute(\x27data-classname\x27);\n          const rowName = row.getAttribute(\x27data-name\x27);\n\n          let match = false;\n          if (name && classname && suite) \x7b\n            // Test case level\n            match = rowSuite === suite && rowClassname === classname && rowName === name;\n          \x7d else if (classname && suite) \x7b\n            // Class level\n"

/-- Template fragment (verbatim from the source). -/
def hF12_p16 : String := "            match = rowSuite === suite && rowClassname === classname;\n          \x7d else if (suite) \x7b\n            // Suite level\n            match = rowSuite === suite;\n          \x7d\n\n          if (match) \x7b\n            row.classList.add(\x27highlighted\x27);\n            row.scrollIntoView(\x7b behavior: \x27smooth\x27, block: \x27center\x27 \x7d);\n          \x7d\n        \x7d);\n      \x7d);\n    \x7d);\n  \x7d\n\n  function bindSidebarSearch() \x7b\n"

/-- Template fragment (verbatim from the source). -/
def hF12_p17 : String := "    const searchInput = document.querySelector(\x27.sidebar-search input\x27);\n    const sidebarItems = document.querySelectorAll(\x27.sidebar-item\x27);\n    const suiteSections = document.querySelectorAll(\x27.suite-section\x27);\n    const classSections = document.querySelectorAll(\x27.class-section\x27);\n    const rows = document.querySelectorAll(\x27.row\x27);\n\n    searchInput.addEventListener(\x27input\x27, (e) => \x7b\n"

/-- Template fragment (verbatim from the source). -/
def hF12_p18 : String := "      const query = e.target.value.toLowerCase().trim();\n\n      // Reset all sections to visible first\n      suiteSections.forEach(section => \x7b\n        section.style.display = \x27\x27;\n        section.classList.remove(\x27collapsed\x27);\n      \x7d);\n\n      classSections.forEach(section => \x7b\n        section.style.display = \x27\x27;\n        section.classList.remove(\x27collapsed\x27);\n      \x7d);\n\n      // Reset sidebar items\n"

/-- Template fragment (verbatim from the source). -/
def hF12_p19 : String := "      sidebarItems.forEach(item => \x7b\n        item.style.display = \x27\x27;\n        item.classList.remove(\x27collapsed\x27);\n      \x7d);\n\n      // Reset all rows to visible\n      rows.forEach(row => \x7b\n        row.style.display = \x27\x27;\n      \x7d);\n\n      if (query === \x27\x27) \x7b\n        // If no search query, show everything\n        return;\n      \x7d\n\n      // Track which suites, classes, and cases have matches\n"

/-- Template fragment (verbatim from the source). -/
def hF12_p20 : String := "      const matchingSuites = new Set();\n      const matchingClasses = new Set();\n      const matchingCases = new Set();\n\n      // Check sidebar items for matches\n      sidebarItems.forEach(item => \x7b\n        const label = item.querySelector(\x27.sidebar-label\x27);\n        const text = label.textContent.toLowerCase();\n        const hasMatch = text.includes(query);\n\n        if (hasMatch) \x7b\n"

/-- Template fragment (verbatim from the source). -/
def hF12_p21 : String := "          const suite = item.getAttribute(\x27data-suite\x27);\n          const classname = item.getAttribute(\x27data-classname\x27);\n          const name = item.getAttribute(\x27data-name\x27);\n\n          if (suite) \x7b\n            matchingSuites.add(suite);\n            if (classname) \x7b\n              matchingClasses.add(suite + \x27:\x27 + classname);\n              if (name) \x7b\n"

/-- Template fragment (verbatim from the source). -/
def hF12_p22 : String := "                matchingCases.add(suite + \x27:\x27 + classname + \x27:\x27 + name);\n              \x7d\n            \x7d\n          \x7d\n        \x7d\n      \x7d);\n\n      // Check main content rows for matches\n      rows.forEach(row => \x7b\n        const suite = row.getAttribute(\x27data-suite\x27);\n        const classname = row.getAttribute(\x27data-classname\x27);\n        const name = row.getAttribute(\x27data-name\x27);\n"

/-- Template fragment (verbatim from the source). -/
def hF12_p23 : String := "        const rowText = row.textContent.toLowerCase();\n        const hasMatch = rowText.includes(query);\n\n        if (hasMatch && suite && classname) \x7b\n          matchingSuites.add(suite);\n          matchingClasses.add(suite + \x27:\x27 + classname);\n          if (name) \x7b\n            matchingCases.add(suite + \x27:\x27 + classname + \x27:\x27 + name);\n          \x7d\n        \x7d\n      \x7d);\n\n      // Show/hide suite sections based on matches\n"

/-- Template fragment (verbatim from the source). -/
def hF12_p24 : String := "      suiteSections.forEach(section => \x7b\n        const suiteName = section.getAttribute(\x27data-suite\x27);\n        const hasMatch = matchingSuites.has(suiteName);\n\n        if (hasMatch) \x7b\n          section.style.display = \x27\x27;\n          section.classList.remove(\x27collapsed\x27);\n        \x7d else \x7b\n          section.style.display = \x27none\x27;\n        \x7d\n      \x7d);\n\n      // Show/hide class sections based on matches\n"

/-- Template fragment (verbatim from the source). -/
def hF12_p25 : String := "      classSections.forEach(section => \x7b\n        const suiteName = section.getAttribute(\x27data-suite\x27);\n        const className = section.getAttribute(\x27data-classname\x27);\n        const classKey = suiteName + \x27:\x27 + className;\n        const hasMatch = matchingClasses.has(classKey);\n\n        if (hasMatch) \x7b\n          section.style.display = \x27\x27;\n          section.classList.remove(\x27collapsed\x27);\n        \x7d else \x7b\n"

/-- Template fragment (verbatim from the source). -/
def hF12_p26 : String := "          section.style.display = \x27none\x27;\n        \x7d\n      \x7d);\n\n      // Show/hide rows based on matches\n      rows.forEach(row => \x7b\n        const suite = row.getAttribute(\x27data-suite\x27);\n        const classname = row.getAttribute(\x27data-classname\x27);\n        const name = row.getAttribute(\x27data-name\x27);\n\n        let shouldShow = false;\n\n        if (suite && classname && name) \x7b\n"

/-- Template fragment (verbatim from the source). -/
def hF12_p27 : String := "          // Case level: only show if case matches\n          const caseKey = suite + \x27:\x27 + classname + \x27:\x27 + name;\n          shouldShow = matchingCases.has(caseKey);\n        \x7d else if (suite && classname) \x7b\n          // Class level: show all cases in this class\n          const classKey = suite + \x27:\x27 + classname;\n          shouldShow = matchingClasses.has(classKey);\n        \x7d else if (suite) \x7b\n"

/-- Template fragment (verbatim from the source). -/
def hF12_p28 : String := "          // Suite level: show all cases in this suite\n          shouldShow = matchingSuites.has(suite);\n        \x7d\n\n        // Hide the row if it shouldn\x27t be shown\n        if (!shouldShow) \x7b\n          row.style.display = \x27none\x27;\n        \x7d else \x7b\n          row.style.display = \x27\x27;\n          // Ensure the row is visible within its proper structure\n          const parentClassSection = row.closest(\x27.class-section\x27);\n"

/-- Template fragment (verbatim from the source). -/
def hF12_p29 : String := "          if (parentClassSection) \x7b\n            parentClassSection.style.display = \x27\x27;\n            parentClassSection.classList.remove(\x27collapsed\x27);\n          \x7d\n          const parentSuiteSection = row.closest(\x27.suite-section\x27);\n          if (parentSuiteSection) \x7b\n            parentSuiteSection.style.display = \x27\x27;\n            parentSuiteSection.classList.remove(\x27collapsed\x27);\n          \x7d\n        \x7d\n      \x7d);\n\n"

/-- Template fragment (verbatim from the source). -/
def hF12_p30 : String := "      // Update sidebar visibility\n      sidebarItems.forEach(item => \x7b\n        const suite = item.getAttribute(\x27data-suite\x27);\n        const classname = item.getAttribute(\x27data-classname\x27);\n        const name = item.getAttribute(\x27data-name\x27);\n\n        let shouldShow = false;\n\n        if (item.classList.contains(\x27suite-item\x27)) \x7b\n          shouldShow = matchingSuites.has(suite);\n"

/-- Template fragment (verbatim from the source). -/
def hF12_p31 : String := "        \x7d else if (item.classList.contains(\x27class-item\x27)) \x7b\n          const classKey = suite + \x27:\x27 + classname;\n          shouldShow = matchingClasses.has(classKey);\n        \x7d else if (item.classList.contains(\x27case-item\x27)) \x7b\n          const caseKey = suite + \x27:\x27 + classname + \x27:\x27 + name;\n          shouldShow = matchingCases.has(caseKey);\n        \x7d\n\n        if (shouldShow) \x7b\n          item.style.display = \x27\x27;\n"

/-- Template fragment (verbatim from the source). -/
def hF12_p32 : String := "          // Show parent items\n          let parent = item.parentElement.closest(\x27.sidebar-item\x27);\n          while (parent) \x7b\n            parent.style.display = \x27\x27;\n            parent.classList.remove(\x27collapsed\x27);\n            parent = parent.parentElement.closest(\x27.sidebar-item\x27);\n          \x7d\n        \x7d else \x7b\n          item.style.display = \x27none\x27;\n        \x7d\n      \x7d);\n    \x7d);\n  \x7d\n\n  // Initialize\n  bindRowToggle();\n"

/-- Template fragment (verbatim from the source). -/
def hF12_p33 : String := "  bindMainContentCollapse();\n  bindSidebarNavigation();\n  bindSidebarSearch();\n\n  searchEl.addEventListener(\x27input\x27, apply);\n  document.querySelector(\x27.sidebar-search input\x27).addEventListener(\x27input\x27, apply);\n  filterEl.addEventListener(\x27change\x27, apply);\n  sortEl.addEventListener(\x27change\x27, apply);\n\x7d)();\n</script>\n\n</body>\n</html>\n"

/-- Template fragment (verbatim from the source), concatenated from its pieces. -/
def hF12 : String := hF12_p0 ++ hF12_p1 ++ hF12_p2 ++ hF12_p3 ++ hF12_p4 ++ hF12_p5 ++ hF12_p6 ++ hF12_p7 ++ hF12_p8 ++ hF12_p9 ++ hF12_p10 ++ hF12_p11 ++ hF12_p12 ++ hF12_p13 ++ hF12_p14 ++ hF12_p15 ++ hF12_p16 ++ hF12_p17 ++ hF12_p18 ++ hF12_p19 ++ hF12_p20 ++ hF12_p21 ++ hF12_p22 ++ hF12_p23 ++ hF12_p24 ++ hF12_p25 ++ hF12_p26 ++ hF12_p27 ++ hF12_p28 ++ hF12_p29 ++ hF12_p30 ++ hF12_p31 ++ hF12_p32 ++ hF12_p33


/-- `need_details` in `_build_row_html`: fail/error rows, and skip rows
carrying a message or detail text, get an expandable details block. -/
def need_details (c : CaseRow) : Bool :=
  (c.status == "fail" || c.status == "err")
    || (c.status == "skip" && (c.message != "" || c.detail != ""))

/-- The `details_html` block of `_build_row_html`, given the pill class. -/
def details_core (pc : String) (c : CaseRow) : String :=
  dF0 ++ pc ++ dF1 ++ label_of c.status ++ dF2
    ++ _escape_html (if c.message = "" then "(no message)" else c.message) ++ dF3
    ++ _escape_html (pyStrip c.detail) ++ dF4

/-- The row markup of `_build_row_html`, given the pill class. -/
def row_core (pc : String) (c : CaseRow) : String :=
  rF0 ++ (if need_details c then " has-details" else "") ++ rF1
    ++ _escape_html c.suite ++ rF2 ++ _escape_html c.classname ++ rF3
    ++ _escape_html c.name ++ rF4 ++ pc ++ rF5 ++ label_of c.status ++ rF6
    ++ _escape_html c.name ++ rF7 ++ _escape_html c.name ++ rF8
    ++ _escape_html c.classname ++ rF9 ++ _escape_html c.classname ++ rF10
    ++ _escape_html c.suite ++ rF11 ++ _escape_html c.suite ++ rF12
    ++ seconds_fmt c.time ++ rF13
    ++ (if need_details c then details_core pc c else "") ++ rF14

/-- `_build_row_html` from the source; `none` models the `KeyError` raised by
the pill-class dictionary lookup on a status outside its four keys. -/
def _build_row_html (c : CaseRow) : Option String :=
  (pill_class_map c.status).map fun pc => row_core pc c

/-- The suite header of `_build_main_content` with its summary pills. -/
def suite_header_html (suite : String) (st : SubTotals) : String :=
  mF0_0 ++ _escape_html suite ++ mF0_1 ++ _escape_html suite ++ mF0_2
    ++ _escape_html suite ++ mF0_3 ++ natRepr st.tests ++ mF0_4
    ++ natRepr st.passed ++ mF0_5 ++ natRepr st.failures ++ mF0_6
    ++ natRepr st.errors ++ mF0_7 ++ natRepr st.skipped ++ mF0_8
    ++ seconds_fmt st.time ++ mF0_9

/-- The class header of `_build_main_content` with its summary pills. -/
def class_header_html (suite classname : String) (ct : SubTotals) : String :=
  mF1_0 ++ _escape_html suite ++ mF1_1 ++ _escape_html classname ++ mF1_2
    ++ _escape_html suite ++ mF1_3 ++ _escape_html classname ++ mF1_4
    ++ _escape_html classname ++ mF1_5 ++ natRepr ct.tests ++ mF1_6
    ++ natRepr ct.passed ++ mF1_7 ++ natRepr ct.failures ++ mF1_8
    ++ natRepr ct.errors ++ mF1_9 ++ natRepr ct.skipped ++ mF1_10
    ++ seconds_fmt ct.time ++ mF1_11

/-- One class section of `_build_main_content`: header, rows sorted by case
name, closing markup. -/
def class_section_html (suite classname : String) (cc : List CaseRow) :
    Option String := do
  let rows ← (sortCasesByName cc).mapM _build_row_html
  pure (class_header_html suite classname (class_totals cc)
    ++ rows.foldl (· ++ ·) "" ++ mF3_0)

/-- One suite section of `_build_main_content`: header with recomputed
totals, class sections in sorted class-key order, closing markup. -/
def suite_section_html (suite : String) (scases : List CaseRow) :
    Option String := do
  let sections ← (sortStrings (classKeys scases)).mapM fun k =>
    class_section_html suite k (classCasesOf scases k)
  pure (suite_header_html suite (suite_totals (suite_cases scases))
    ++ sections.foldl (· ++ ·) "" ++ mF4_0)

/-- `_build_main_content` from the source: group cases by suite then by
classname (with the `"Default"` placeholder for an empty classname), render
suite sections in sorted suite-key order. -/
def _build_main_content (data : ParseData) : Option String := do
  let sections ← (sortStrings (structureKeys data.cases)).mapM fun s =>
    suite_section_html s (suiteCasesOf data.cases s)
  pure (sections.foldl (· ++ ·) "")

/-- One case entry of `_build_sidebar`. -/
def sidebar_case_html (suite classname name : String) : String :=
  sF21_0 ++ _escape_html suite ++ sF21_1 ++ _escape_html classname ++ sF21_2
    ++ _escape_html name ++ sF21_3
    ++ sF22_0 ++ _escape_html suite ++ sF22_1 ++ _escape_html classname ++ sF22_2
    ++ _escape_html name ++ sF22_3
    ++ sF23_0 ++ sF24_0 ++ _escape_html name ++ sF24_1 ++ sF25_0 ++ sF26_0

/-- One class subtree of `_build_sidebar` (case names sorted). -/
def sidebar_class_html (suite classname : String) (names : List String) : String :=
  sF14_0 ++ _escape_html suite ++ sF14_1 ++ _escape_html classname ++ sF14_2
    ++ sF15_0 ++ _escape_html suite ++ sF15_1 ++ _escape_html classname ++ sF15_2
    ++ sF16_0 ++ sF17_0 ++ sF18_0 ++ _escape_html classname ++ sF18_1
    ++ sF19_0 ++ sF20_0
    ++ ((sortStrings names).map (sidebar_case_html suite classname)).foldl (· ++ ·) ""
    ++ sF27_0 ++ sF28_0

/-- One suite subtree of `_build_sidebar` (class keys sorted). -/
def sidebar_suite_html (suite : String) (scases : List CaseRow) : String :=
  sF7_0 ++ _escape_html suite ++ sF7_1
    ++ sF8_0 ++ _escape_html suite ++ sF8_1
    ++ sF9_0 ++ sF10_0 ++ sF11_0 ++ _escape_html suite ++ sF11_1
    ++ sF12_0 ++ sF13_0
    ++ ((sortStrings (classKeys scases)).map fun k =>
        sidebar_class_html suite k ((classCasesOf scases k).map (·.name))).foldl
        (· ++ ·) ""
    ++ sF29_0 ++ sF30_0

/-- `_build_sidebar` from the source: the same suite/class grouping as the
main content, rendering case names into the navigation tree. -/
def _build_sidebar (data : ParseData) (title : String) : String :=
  sF0_0 ++ sF1_0 ++ sF2_0 ++ sF3_0
    ++ sF4_0 ++ _escape_html title ++ sF4_1 ++ sF5_0 ++ sF6_0
    ++ ((sortStrings (structureKeys data.cases)).map fun s =>
        sidebar_suite_html s (suiteCasesOf data.cases s)).foldl (· ++ ·) ""
    ++ sF31_0 ++ sF32_0

/-- `render_html` from the source (the timestamp `now` is a parameter; the
source captures it from the clock just before rendering). -/
def render_html (data : ParseData) (title now : String) : Option String := do
  let t := data.totals
  let main_content_html ← _build_main_content data
  let sidebar_html := _build_sidebar data title
  pure (hF0 ++ _escape_html title ++ hF1 ++ sidebar_html ++ hF2
    ++ _escape_html title ++ hF3 ++ _escape_html now ++ hF4
    ++ natRepr t.suites ++ hF5 ++ intRepr t.tests ++ hF6 ++ intRepr t.passed ++ hF7
    ++ intRepr t.failures ++ hF8 ++ intRepr t.errors ++ hF9
    ++ intRepr t.skipped ++ hF10 ++ seconds_fmt t.time ++ hF11
    ++ main_content_html ++ hF12)

/-- The CLI driver `main`: parse all inputs (aborting on the first failure),
render, and only then write the output file; the returned `WriteEvent` is
the single write the run performs. -/
def mainE (fs : String → Except ParseErr (List RawSuite)) (inputs : List String)
    (output title now : String) : Except RunErr WriteEvent :=
  match parse_filesE fs inputs with
  | .error e => .error (.parse e)
  | .ok data =>
    match render_html data title now with
    | some h => .ok ⟨output, h⟩
    | none => .error .render

/-- The four status codes `_get_test_status` can produce. -/
def statusKeys : List String := ["ok", "fail", "err", "skip"]

/-- The injection payload of the escaping claim. -/
def payload : List Char := "<script>alert(1)</script>".data

/-- A chunk of rendered output is harmless when the payload does not occur
inside it and no nonempty tail of the payload is one of its prefixes (so no
occurrence of the payload can end inside it, wherever it is placed). -/
def FragOK (l : List Char) : Prop :=
  (¬ payload <:+: l) ∧ ∀ k < 25, ¬ (payload.drop k <+: l)

/-- A string is payload-free when it splits into harmless chunks. -/
def NoBadS (s : String) : Prop :=
  ∃ cs : List (List Char), s.data = cs.flatten ∧ ∀ c ∈ cs, FragOK c

/-- Pure mirror of the rows of one class section (used to describe the
`Option` results on well-formed data). -/
def rows_html_str (cc : List CaseRow) : String :=
  ((sortCasesByName cc).map fun c => row_core c.status c).foldl (· ++ ·) ""

/-- Pure mirror of `class_section_html` on well-formed data. -/
def class_section_str (suite classname : String) (cc : List CaseRow) : String :=
  class_header_html suite classname (class_totals cc) ++ rows_html_str cc ++ mF3_0

/-- Pure mirror of `suite_section_html` on well-formed data. -/
def suite_section_str (suite : String) (scases : List CaseRow) : String :=
  suite_header_html suite (suite_totals (suite_cases scases))
    ++ ((sortStrings (classKeys scases)).map fun k =>
        class_section_str suite k (classCasesOf scases k)).foldl (· ++ ·) ""
    ++ mF4_0

/-- Pure mirror of `_build_main_content` on well-formed data. -/
def main_content_str (data : ParseData) : String :=
  ((sortStrings (structureKeys data.cases)).map fun s =>
    suite_section_str s (suiteCasesOf data.cases s)).foldl (· ++ ·) ""

/-- Pure mirror of `render_html` on well-formed data. -/
def render_str (data : ParseData) (title now : String) : String :=
  hF0 ++ _escape_html title ++ hF1 ++ _build_sidebar data title ++ hF2
    ++ _escape_html title ++ hF3 ++ _escape_html now ++ hF4
    ++ natRepr data.totals.suites ++ hF5 ++ intRepr data.totals.tests ++ hF6
    ++ intRepr data.totals.passed ++ hF7 ++ intRepr data.totals.failures ++ hF8
    ++ intRepr data.totals.errors ++ hF9 ++ intRepr data.totals.skipped ++ hF10
    ++ seconds_fmt data.totals.time ++ hF11 ++ main_content_str data ++ hF12

/-- All statuses in a parse result are among the four status keys. -/
def WFStatuses (data : ParseData) : Prop :=
  ∀ c ∈ data.cases, c.status ∈ statusKeys

/-- The (path, suite-element) pairs traversed by the `parse_files` loop. -/
def allSuitePairs (files : List (String × List RawSuite)) :
    List (String × RawSuite) :=
  files.flatMap fun pf => pf.2.map fun s => (pf.1, s)

/-- The case rows contributed by one (path, suite-element) pair. -/
def casesOfPair (pr : String × RawSuite) : List CaseRow :=
  pr.2.cases.map (caseRecord (suiteName pr.1 pr.2))

/-- The suite-level XML attributes of a suite element agree with its actual
case list (the condition under which attribute-derived and case-derived
counts coincide). -/
def AttrsConsistent (pr : String × RawSuite) : Prop :=
  suiteTests pr.2 = ((casesOfPair pr).length : ℤ)
    ∧ orZero pr.2.failures
      = (((casesOfPair pr).filter fun c => c.status = "fail").length : ℤ)
    ∧ orZero pr.2.errors
      = (((casesOfPair pr).filter fun c => c.status = "err").length : ℤ)
    ∧ suiteSkipped pr.2
      = (((casesOfPair pr).filter fun c => c.status = "skip").length : ℤ)

/-- Concrete example input: one file, one suite `"S"`, one passing and one
failing case (used by claim witnesses). -/
def exFiles1 : List (String × List RawSuite) :=
  [("f.xml",
    [{ name := some "S",
       cases := [{ name := some "a" },
         { name := some "b", result := [⟨.failure, some "boom", none⟩] }] }])]

/-- Concrete example case whose result list holds an `Error` then a `Failure`. -/
def exCaseEF : RawCase :=
  { result := [⟨.error, none, none⟩, ⟨.failure, none, none⟩] }

/-- Concrete example input whose suite attribute `failures="1"` disagrees with
its single passing case. -/
def exFilesC3 : List (String × List RawSuite) :=
  [("f.xml",
    [{ name := some "S", failures := some 1,
       cases := [{ name := some "t" }] }])]

/-- Concrete example input whose suite attributes agree with its case list
(two tests, one failure). -/
def exFilesOK : List (String × List RawSuite) :=
  [("f.xml",
    [{ name := some "S", tests := some 2, failures := some 1,
       cases := [{ name := some "a" },
         { name := some "b", result := [⟨.failure, some "boom", none⟩] }] }])]

/-- Two concrete suites declaring the same name `"Suite1"` with disjoint cases. -/
def exS1 : RawSuite := { name := some "Suite1", cases := [{ name := some "a" }] }

/-- Second suite of the same-name pair. -/
def exS2 : RawSuite := { name := some "Suite1", cases := [{ name := some "b" }] }

/-- Concrete example input with a case named `<script>alert(1)</script>`. -/
def exFilesC5 : List (String × List RawSuite) :=
  [("f.xml",
    [{ name := some "S",
       cases := [{ name := some "<script>alert(1)</script>" }] }])]

/-- Concrete suite with every optional numeric attribute absent. -/
def exSuiteC6 : RawSuite := { name := some "S", cases := [{ name := some "t" }] }

/-- Concrete two-file input with distinct suite names. -/
def exFilesAB : List (String × List RawSuite) :=
  [("a.xml", [{ name := some "A" }]), ("b.xml", [{ name := some "B" }])]

/-- The same two files in the opposite order. -/
def exFilesBA : List (String × List RawSuite) :=
  [("b.xml", [{ name := some "B" }]), ("a.xml", [{ name := some "A" }])]

/-- A `fromfile` oracle on which every path fails to parse. -/
def exFsFail : String → Except ParseErr (List RawSuite) :=
  fun p => .error (.fromfileFailed p)

/-- Concrete case whose XML omits the classname. -/
def exCaseNoCls : RawCase := { name := some "t" }

/-! ### Library-style helper lemmas -/

theorem mem_mono {c : Char} {l1 l2 : List Char} (h : c ∈ l1)
    (hs : ∀ x ∈ l1, x ∈ l2) : c ∈ l2 := hs c h

theorem eraseDups_loop_mem {α} [BEq α] [LawfulBEq α] (as bs : List α) (x : α) :
    x ∈ List.eraseDups.loop as bs ↔ x ∈ bs ∨ x ∈ as := by
  induction as generalizing bs with
  | nil => simp [List.eraseDups.loop]
  | cons a as ih =>
    by_cases h : a ∈ bs
    · have he : List.elem a bs = true := List.elem_iff.2 h
      simp only [List.eraseDups.loop, he]
      simp only [ih, List.mem_cons]
      constructor
      · rintro (hx | hx)
        · exact Or.inl hx
        · exact Or.inr (Or.inr hx)
      · rintro (hx | rfl | hx)
        · exact Or.inl hx
        · exact Or.inl h
        · exact Or.inr hx
    · have he : List.elem a bs = false := by
        simp [List.elem_eq_mem, h]
      simp only [List.eraseDups.loop, he]
      simp only [ih, List.mem_cons]
      tauto

theorem mem_eraseDups {α} [BEq α] [LawfulBEq α] (l : List α) (x : α) :
    x ∈ l.eraseDups ↔ x ∈ l := by
  unfold List.eraseDups
  rw [eraseDups_loop_mem]
  simp

theorem eraseDups_loop_nodup {α} [BEq α] [LawfulBEq α] (as bs : List α)
    (hb : bs.Nodup) : (List.eraseDups.loop as bs).Nodup := by
  induction as generalizing bs with
  | nil => simpa [List.eraseDups.loop] using List.nodup_reverse.2 hb
  | cons a as ih =>
    by_cases h : a ∈ bs
    · have he : List.elem a bs = true := List.elem_iff.2 h
      simpa only [List.eraseDups.loop, he] using ih bs hb
    · have he : List.elem a bs = false := by
        simp [List.elem_eq_mem, h]
      simpa only [List.eraseDups.loop, he] using
        ih (a :: bs) (List.nodup_cons.2 ⟨h, hb⟩)

theorem nodup_eraseDups {α} [BEq α] [LawfulBEq α] (l : List α) :
    l.eraseDups.Nodup := by
  unfold List.eraseDups
  exact eraseDups_loop_nodup l [] List.nodup_nil

theorem eraseDups_loop_absorb {α} [BEq α] [LawfulBEq α] (as bs : List α)
    (h : ∀ x ∈ as, x ∈ bs) : List.eraseDups.loop as bs = bs.reverse := by
  induction as with
  | nil => simp [List.eraseDups.loop]
  | cons a as ih =>
    have ha : a ∈ bs := h a (List.mem_cons_self a as)
    have he : List.elem a bs = true := List.elem_iff.2 ha
    simp only [List.eraseDups.loop, he]
    exact ih fun x hx => h x (List.mem_cons_of_mem _ hx)

theorem eraseDups_const {α} [BEq α] [LawfulBEq α] (n : α) (as : List α)
    (h : ∀ x ∈ as, x = n) (hne : as ≠ []) : as.eraseDups = [n] := by
  cases as with
  | nil => exact absurd rfl hne
  | cons a as =>
    have ha : a = n := h a (List.mem_cons_self a as)
    subst ha
    unfold List.eraseDups
    have he : List.elem a ([] : List α) = false := rfl
    simp only [List.eraseDups.loop, he]
    rw [eraseDups_loop_absorb]
    · rfl
    · intro x hx
      rw [h x (List.mem_cons_of_mem _ hx)]
      exact List.mem_cons_self _ _

theorem mem_sortStrings {l : List String} {x : String} :
    x ∈ sortStrings l ↔ x ∈ l :=
  (List.perm_insertionSort _ l).mem_iff

theorem mem_sortCasesByName {l : List CaseRow} {x : CaseRow} :
    x ∈ sortCasesByName l ↔ x ∈ l :=
  (List.perm_insertionSort _ l).mem_iff

theorem digitChar_mem (n : ℕ) :
    digitChar n ∈ ['0', '1', '2', '3', '4', '5', '6', '7', '8', '9'] := by
  unfold digitChar
  split <;> decide

theorem natDigitsGo_mem (fuel : ℕ) :
    ∀ (n : ℕ) (acc : List Char),
      (∀ c ∈ acc, c ∈ ['0', '1', '2', '3', '4', '5', '6', '7', '8', '9']) →
      ∀ c ∈ natDigitsGo fuel n acc,
        c ∈ ['0', '1', '2', '3', '4', '5', '6', '7', '8', '9'] := by
  induction fuel with
  | zero => intro n acc hacc c hc; exact hacc c hc
  | succ fuel ih =>
    intro n acc hacc c hc
    unfold natDigitsGo at hc
    by_cases h : n < 10
    · simp only [h, if_true] at hc
      rcases List.mem_cons.1 hc with rfl | hc
      · exact digitChar_mem n
      · exact hacc c hc
    · simp only [h, if_false] at hc
      refine ih (n / 10) (digitChar (n % 10) :: acc) ?_ c hc
      intro d hd
      rcases List.mem_cons.1 hd with rfl | hd
      · exact digitChar_mem _
      · exact hacc d hd

theorem natRepr_mem (n : ℕ) :
    ∀ c ∈ (natRepr n).data, c ∈ ['0', '1', '2', '3', '4', '5', '6', '7', '8', '9'] := by
  intro c hc
  exact natDigitsGo_mem (n + 1) n [] (by intro c h; cases h) c hc

theorem intRepr_mem (i : ℤ) :
    ∀ c ∈ (intRepr i).data,
      c ∈ ['-', '0', '1', '2', '3', '4', '5', '6', '7', '8', '9'] := by
  intro c hc
  unfold intRepr at hc
  by_cases h : i < 0
  · simp only [h, if_true, String.data_append] at hc
    rcases List.mem_append.1 hc with hc | hc
    · simp [List.mem_singleton.1 hc]
    · exact List.mem_cons_of_mem _ (natRepr_mem _ c hc)
  · simp only [h, if_false] at hc
    exact List.mem_cons_of_mem _ (natRepr_mem _ c hc)

theorem pad2_mem (n : ℕ) :
    ∀ c ∈ (pad2 n).data,
      c ∈ ['0', '1', '2', '3', '4', '5', '6', '7', '8', '9'] := by
  intro c hc
  unfold pad2 at hc
  by_cases h : n < 10
  · simp only [h, if_true, String.data_append] at hc
    rcases List.mem_append.1 hc with hc | hc
    · simp [List.mem_singleton.1 hc]
    · exact natRepr_mem _ c hc
  · simp only [h, if_false] at hc
    exact natRepr_mem _ c hc

theorem fmt2_mem (x : ℚ) :
    ∀ c ∈ (fmt2 x).data,
      c ∈ ['-', '.', '0', '1', '2', '3', '4', '5', '6', '7', '8', '9'] := by
  intro c hc
  unfold fmt2 at hc
  simp only [String.data_append] at hc
  rcases List.mem_append.1 hc with hc | hc
  · rcases List.mem_append.1 hc with hc | hc
    · rcases List.mem_append.1 hc with hc | hc
      · by_cases h : x < 0
        · simp only [h, if_true] at hc
          simp [List.mem_singleton.1 hc]
        · simp only [h, if_false] at hc
          cases hc
      · exact mem_mono (natRepr_mem _ c hc) (by decide)
    · simp [List.mem_singleton.1 hc]
  · exact mem_mono (pad2_mem _ c hc) (by decide)

theorem seconds_fmt_mem (sec : ℚ) :
    ∀ c ∈ (seconds_fmt sec).data,
      c ∈ ['m', 's', '-', '.', '0', '1', '2', '3', '4', '5', '6', '7', '8', '9'] := by
  intro c hc
  unfold seconds_fmt at hc
  by_cases h : sec ≥ 60
  · simp only [h, if_true, String.data_append] at hc
    rcases List.mem_append.1 hc with hc | hc
    · rcases List.mem_append.1 hc with hc | hc
      · rcases List.mem_append.1 hc with hc | hc
        · exact mem_mono (intRepr_mem _ c hc) (by decide)
        · simp [List.mem_singleton.1 hc]
      · exact mem_mono (fmt2_mem _ c hc) (by decide)
    · simp [List.mem_singleton.1 hc]
  · simp only [h, if_false, String.data_append] at hc
    rcases List.mem_append.1 hc with hc | hc
    · exact mem_mono (fmt2_mem _ c hc) (by decide)
    · simp [List.mem_singleton.1 hc]

theorem escChar_safe (c : Char) : '<' ∉ escChar c ∧ '>' ∉ escChar c := by
  unfold escChar
  by_cases h1 : c = '&'
  · simp [h1]
  by_cases h2 : c = '<'
  · simp [h1, h2]
  by_cases h3 : c = '>'
  · simp [h1, h2, h3]
  by_cases h4 : c = '"'
  · simp [h1, h2, h3, h4]
  by_cases h5 : c = aposChar
  · simp only [h5]
    decide
  · simp only [h1, h2, h3, h4, h5, if_false]
    constructor
    · intro hc
      exact h2 (List.mem_singleton.1 hc).symm
    · intro hc
      exact h3 (List.mem_singleton.1 hc).symm

theorem escape_safe (s : String) :
    '<' ∉ (_escape_html s).data ∧ '>' ∉ (_escape_html s).data := by
  constructor <;> intro hmem <;>
    · unfold _escape_html at hmem
      rcases List.mem_flatMap.1 hmem with ⟨c, _, hc⟩
      first
      | exact (escChar_safe c).1 hc
      | exact (escChar_safe c).2 hc

theorem payload_length : payload.length = 25 := by decide

theorem prefix_append_cases {α} {t a b : List α} (h : t <+: a ++ b) :
    t <+: a ∨ (a <+: t ∧ t.drop a.length <+: b) := by
  rcases h with ⟨r, hr⟩
  by_cases hl : t.length ≤ a.length
  · left
    have h1 : (t ++ r).take t.length = t := by
      simp [List.take_append_eq_append_take]
    have h2 : (a ++ b).take t.length = a.take t.length := by
      rw [List.take_append_eq_append_take]
      have he : t.length - a.length = 0 := by omega
      simp [he]
    rw [hr, h2] at h1
    rw [← h1]
    exact List.take_prefix _ _
  · push_neg at hl
    have h1 : (t ++ r).take a.length = t.take a.length := by
      rw [List.take_append_eq_append_take]
      have he : a.length - t.length = 0 := by omega
      simp [he]
    have h2 : (a ++ b).take a.length = a := by
      simp [List.take_append_eq_append_take]
    rw [hr, h2] at h1
    have h3 : (t ++ r).drop a.length = t.drop a.length ++ r := by
      rw [List.drop_append_eq_append_drop]
      have he : a.length - t.length = 0 := by omega
      simp [he]
    have h4 : (a ++ b).drop a.length = b := by
      simp [List.drop_append_eq_append_drop]
    rw [hr, h4] at h3
    refine Or.inr ⟨?_, ?_⟩
    · rw [h1]
      exact List.take_prefix _ _
    · exact ⟨r, h3.symm⟩

theorem infix_append_cases {α} {p a b : List α} (h : p <:+: a ++ b) :
    p <:+: a ∨ p <:+: b ∨ ∃ k, 0 < k ∧ k < p.length ∧ p.drop k <+: b := by
  rcases h with ⟨s, t2, hst⟩
  by_cases h1 : a.length ≤ s.length
  · right; left
    have hb : (s ++ (p ++ t2)).drop a.length = s.drop a.length ++ (p ++ t2) := by
      rw [List.drop_append_eq_append_drop]
      have he : a.length - s.length = 0 := by omega
      simp [he]
    have hb2 : (a ++ b).drop a.length = b := by
      simp [List.drop_append_eq_append_drop]
    rw [← List.append_assoc, hst, hb2] at hb
    exact ⟨s.drop a.length, t2, by rw [List.append_assoc]; exact hb.symm⟩
  · push_neg at h1
    by_cases h2 : s.length + p.length ≤ a.length
    · left
      have ha : (s ++ (p ++ t2)).take a.length
          = s ++ (p ++ t2.take (a.length - s.length - p.length)) := by
        rw [List.take_append_eq_append_take]
        rw [List.take_of_length_le (by omega : s.length ≤ a.length)]
        rw [List.take_append_eq_append_take]
        rw [List.take_of_length_le (by omega : p.length ≤ a.length - s.length)]
      have ha2 : (a ++ b).take a.length = a := by
        simp [List.take_append_eq_append_take]
      rw [← List.append_assoc, hst, ha2] at ha
      exact ⟨s, t2.take (a.length - s.length - p.length), by
        rw [List.append_assoc, ← ha]⟩
    · right; right
      push_neg at h2
      refine ⟨a.length - s.length, by omega, by omega, ?_⟩
      have hb : (s ++ (p ++ t2)).drop a.length
          = (p ++ t2).drop (a.length - s.length) := by
        rw [List.drop_append_eq_append_drop]
        rw [List.drop_eq_nil_of_le (by omega : s.length ≤ a.length)]
        simp
      have hb2 : (a ++ b).drop a.length = b := by
        simp [List.drop_append_eq_append_drop]
      rw [← List.append_assoc, hst, hb2] at hb
      have hsplit : (p ++ t2).drop (a.length - s.length)
          = p.drop (a.length - s.length) ++ t2 := by
        rw [List.drop_append_eq_append_drop]
        have he : a.length - s.length - p.length = 0 := by omega
        simp [he]
      rw [hsplit] at hb
      exact ⟨t2, hb.symm⟩

theorem drop_prefix_flatten {cs : List (List Char)}
    (hcs : ∀ c ∈ cs, FragOK c) :
    ∀ k, 0 < k → k < 25 → ¬ (payload.drop k <+: cs.flatten) := by
  induction cs with
  | nil =>
    intro k hk h25 hpre
    rw [List.flatten_nil] at hpre
    have hnil := List.prefix_nil.1 hpre
    have hlen := congrArg List.length hnil
    rw [List.length_drop, payload_length] at hlen
    simp at hlen
    omega
  | cons c cs ih =>
    intro k hk h25 hpre
    rw [List.flatten_cons] at hpre
    rcases prefix_append_cases hpre with h | ⟨hc, hd⟩
    · exact (hcs c (List.mem_cons_self _ _)).2 k h25 h
    · rw [List.drop_drop] at hd
      by_cases hlt : k + c.length < 25
      · exact ih (fun x hx => hcs x (List.mem_cons_of_mem _ hx))
          (k + c.length) (by omega) hlt hd
      · have hlen : (payload.drop k).length ≤ c.length := by
          rw [List.length_drop, payload_length]
          omega
        have hceq := (List.IsPrefix.eq_of_length_le hc hlen).symm
        exact (hcs c (List.mem_cons_self _ _)).2 k h25 (hceq ▸ List.prefix_refl c)

theorem payload_not_infix_flatten {cs : List (List Char)}
    (hcs : ∀ c ∈ cs, FragOK c) : ¬ payload <:+: cs.flatten := by
  induction cs with
  | nil =>
    intro h
    rw [List.flatten_nil] at h
    have hnil := List.eq_nil_of_infix_nil h
    have hlen := congrArg List.length hnil
    rw [payload_length] at hlen
    simp at hlen
  | cons c cs ih =>
    intro h
    rw [List.flatten_cons] at h
    rcases infix_append_cases h with h | h | ⟨k, hk, h25, hpre⟩
    · exact (hcs c (List.mem_cons_self _ _)).1 h
    · exact ih (fun x hx => hcs x (List.mem_cons_of_mem _ hx)) h
    · rw [payload_length] at h25
      exact drop_prefix_flatten (fun x hx => hcs x (List.mem_cons_of_mem _ hx))
        k hk h25 hpre

theorem fragOK_of_safe {l : List Char} (h1 : '<' ∉ l) (h2 : '>' ∉ l) :
    FragOK l := by
  constructor
  · intro hinf
    exact h1 (hinf.subset (by decide : '<' ∈ payload))
  · have hgt : ∀ k < 25, '>' ∈ payload.drop k := by decide
    intro k h25 hpre
    exact h2 (hpre.subset (hgt k h25))

theorem noBadS_of_fragOK {s : String} (h : FragOK s.data) : NoBadS s :=
  ⟨[s.data], by simp, by simpa using h⟩

theorem noBadS_safe {s : String} (h1 : '<' ∉ s.data) (h2 : '>' ∉ s.data) :
    NoBadS s :=
  noBadS_of_fragOK (fragOK_of_safe h1 h2)

theorem noBadS_escape (x : String) : NoBadS (_escape_html x) :=
  noBadS_safe (escape_safe x).1 (escape_safe x).2

theorem noBadS_append {a b : String} (ha : NoBadS a) (hb : NoBadS b) :
    NoBadS (a ++ b) := by
  rcases ha with ⟨ca, hda, hfa⟩
  rcases hb with ⟨cb, hdb, hfb⟩
  refine ⟨ca ++ cb, ?_, ?_⟩
  · rw [String.data_append, hda, hdb, List.flatten_append]
  · intro c hc
    rcases List.mem_append.1 hc with hc | hc
    · exact hfa c hc
    · exact hfb c hc

theorem noBadS_empty : NoBadS "" := ⟨[], rfl, by simp⟩

theorem noBadS_foldl {l : List String} :
    ∀ {init : String}, NoBadS init → (∀ s ∈ l, NoBadS s) →
      NoBadS (l.foldl (· ++ ·) init) := by
  induction l with
  | nil => intro init hi _; exact hi
  | cons a l ih =>
    intro init hi h
    exact ih (noBadS_append hi (h a (List.mem_cons_self _ _)))
      (fun s hs => h s (List.mem_cons_of_mem _ hs))

theorem noBadS_not_payload {s : String} (h : NoBadS s) :
    ¬ payload <:+: s.data := by
  rcases h with ⟨cs, hd, hf⟩
  rw [hd]
  exact payload_not_infix_flatten hf

theorem noBadS_natRepr (n : ℕ) : NoBadS (natRepr n) :=
  noBadS_safe
    (fun h => by have := natRepr_mem n '<' h; simp at this)
    (fun h => by have := natRepr_mem n '>' h; simp at this)

theorem noBadS_intRepr (i : ℤ) : NoBadS (intRepr i) :=
  noBadS_safe
    (fun h => by have := intRepr_mem i '<' h; simp at this)
    (fun h => by have := intRepr_mem i '>' h; simp at this)

theorem noBadS_seconds_fmt (sec : ℚ) : NoBadS (seconds_fmt sec) :=
  noBadS_safe
    (fun h => by have := seconds_fmt_mem sec '<' h; simp at this)
    (fun h => by have := seconds_fmt_mem sec '>' h; simp at this)
set_option maxRecDepth 8000

theorem fragOK_dF0 : FragOK dF0.data := by unfold FragOK; decide
theorem fragOK_dF1 : FragOK dF1.data := by unfold FragOK; decide
theorem fragOK_dF2 : FragOK dF2.data := by unfold FragOK; decide
theorem fragOK_dF3 : FragOK dF3.data := by unfold FragOK; decide
theorem fragOK_dF4 : FragOK dF4.data := by unfold FragOK; decide
theorem fragOK_rF0 : FragOK rF0.data := by unfold FragOK; decide
theorem fragOK_rF1 : FragOK rF1.data := by unfold FragOK; decide
theorem fragOK_rF2 : FragOK rF2.data := by unfold FragOK; decide
theorem fragOK_rF3 : FragOK rF3.data := by unfold FragOK; decide
theorem fragOK_rF4 : FragOK rF4.data := by unfold FragOK; decide
theorem fragOK_rF5 : FragOK rF5.data := by unfold FragOK; decide
theorem fragOK_rF6 : FragOK rF6.data := by unfold FragOK; decide
theorem fragOK_rF7 : FragOK rF7.data := by unfold FragOK; decide
theorem fragOK_rF8 : FragOK rF8.data := by unfold FragOK; decide
theorem fragOK_rF9 : FragOK rF9.data := by unfold FragOK; decide
theorem fragOK_rF10 : FragOK rF10.data := by unfold FragOK; decide
theorem fragOK_rF11 : FragOK rF11.data := by unfold FragOK; decide
theorem fragOK_rF12 : FragOK rF12.data := by unfold FragOK; decide
theorem fragOK_rF13 : FragOK rF13.data := by unfold FragOK; decide
theorem fragOK_rF14 : FragOK rF14.data := by unfold FragOK; decide
theorem fragOK_mF0_0 : FragOK mF0_0.data := by unfold FragOK; decide
theorem fragOK_mF0_1 : FragOK mF0_1.data := by unfold FragOK; decide
theorem fragOK_mF0_2 : FragOK mF0_2.data := by unfold FragOK; decide
theorem fragOK_mF0_3 : FragOK mF0_3.data := by unfold FragOK; decide
theorem fragOK_mF0_4 : FragOK mF0_4.data := by unfold FragOK; decide
theorem fragOK_mF0_5 : FragOK mF0_5.data := by unfold FragOK; decide
theorem fragOK_mF0_6 : FragOK mF0_6.data := by unfold FragOK; decide
theorem fragOK_mF0_7 : FragOK mF0_7.data := by unfold FragOK; decide
theorem fragOK_mF0_8 : FragOK mF0_8.data := by unfold FragOK; decide
theorem fragOK_mF0_9 : FragOK mF0_9.data := by unfold FragOK; decide
theorem fragOK_mF1_0 : FragOK mF1_0.data := by unfold FragOK; decide
theorem fragOK_mF1_1 : FragOK mF1_1.data := by unfold FragOK; decide
theorem fragOK_mF1_2 : FragOK mF1_2.data := by unfold FragOK; decide
theorem fragOK_mF1_3 : FragOK mF1_3.data := by unfold FragOK; decide
theorem fragOK_mF1_4 : FragOK mF1_4.data := by unfold FragOK; decide
theorem fragOK_mF1_5 : FragOK mF1_5.data := by unfold FragOK; decide
theorem fragOK_mF1_6 : FragOK mF1_6.data := by unfold FragOK; decide
theorem fragOK_mF1_7 : FragOK mF1_7.data := by unfold FragOK; decide
theorem fragOK_mF1_8 : FragOK mF1_8.data := by unfold FragOK; decide
theorem fragOK_mF1_9 : FragOK mF1_9.data := by unfold FragOK; decide
theorem fragOK_mF1_10 : FragOK mF1_10.data := by unfold FragOK; decide
theorem fragOK_mF1_11 : FragOK mF1_11.data := by unfold FragOK; decide
theorem fragOK_mF3_0 : FragOK mF3_0.data := by unfold FragOK; decide
theorem fragOK_mF4_0 : FragOK mF4_0.data := by unfold FragOK; decide
theorem fragOK_sF0_0 : FragOK sF0_0.data := by unfold FragOK; decide
theorem fragOK_sF1_0 : FragOK sF1_0.data := by unfold FragOK; decide
theorem fragOK_sF2_0 : FragOK sF2_0.data := by unfold FragOK; decide
theorem fragOK_sF3_0 : FragOK sF3_0.data := by unfold FragOK; decide
theorem fragOK_sF4_0 : FragOK sF4_0.data := by unfold FragOK; decide
theorem fragOK_sF4_1 : FragOK sF4_1.data := by unfold FragOK; decide
theorem fragOK_sF5_0 : FragOK sF5_0.data := by unfold FragOK; decide
theorem fragOK_sF6_0 : FragOK sF6_0.data := by unfold FragOK; decide
theorem fragOK_sF7_0 : FragOK sF7_0.data := by unfold FragOK; decide
theorem fragOK_sF7_1 : FragOK sF7_1.data := by unfold FragOK; decide
theorem fragOK_sF8_0 : FragOK sF8_0.data := by unfold FragOK; decide
theorem fragOK_sF8_1 : FragOK sF8_1.data := by unfold FragOK; decide
theorem fragOK_sF9_0 : FragOK sF9_0.data := by unfold FragOK; decide
theorem fragOK_sF10_0 : FragOK sF10_0.data := by unfold FragOK; decide
theorem fragOK_sF11_0 : FragOK sF11_0.data := by unfold FragOK; decide
theorem fragOK_sF11_1 : FragOK sF11_1.data := by unfold FragOK; decide
theorem fragOK_sF12_0 : FragOK sF12_0.data := by unfold FragOK; decide
theorem fragOK_sF13_0 : FragOK sF13_0.data := by unfold FragOK; decide
theorem fragOK_sF14_0 : FragOK sF14_0.data := by unfold FragOK; decide
theorem fragOK_sF14_1 : FragOK sF14_1.data := by unfold FragOK; decide
theorem fragOK_sF14_2 : FragOK sF14_2.data := by unfold FragOK; decide
theorem fragOK_sF15_0 : FragOK sF15_0.data := by unfold FragOK; decide
theorem fragOK_sF15_1 : FragOK sF15_1.data := by unfold FragOK; decide
theorem fragOK_sF15_2 : FragOK sF15_2.data := by unfold FragOK; decide
theorem fragOK_sF16_0 : FragOK sF16_0.data := by unfold FragOK; decide
theorem fragOK_sF17_0 : FragOK sF17_0.data := by unfold FragOK; decide
theorem fragOK_sF18_0 : FragOK sF18_0.data := by unfold FragOK; decide
theorem fragOK_sF18_1 : FragOK sF18_1.data := by unfold FragOK; decide
theorem fragOK_sF19_0 : FragOK sF19_0.data := by unfold FragOK; decide
theorem fragOK_sF20_0 : FragOK sF20_0.data := by unfold FragOK; decide
theorem fragOK_sF21_0 : FragOK sF21_0.data := by unfold FragOK; decide
theorem fragOK_sF21_1 : FragOK sF21_1.data := by unfold FragOK; decide
theorem fragOK_sF21_2 : FragOK sF21_2.data := by unfold FragOK; decide
theorem fragOK_sF21_3 : FragOK sF21_3.data := by unfold FragOK; decide
theorem fragOK_sF22_0 : FragOK sF22_0.data := by unfold FragOK; decide
theorem fragOK_sF22_1 : FragOK sF22_1.data := by unfold FragOK; decide
theorem fragOK_sF22_2 : FragOK sF22_2.data := by unfold FragOK; decide
theorem fragOK_sF22_3 : FragOK sF22_3.data := by unfold FragOK; decide
theorem fragOK_sF23_0 : FragOK sF23_0.data := by unfold FragOK; decide
theorem fragOK_sF24_0 : FragOK sF24_0.data := by unfold FragOK; decide
theorem fragOK_sF24_1 : FragOK sF24_1.data := by unfold FragOK; decide
theorem fragOK_sF25_0 : FragOK sF25_0.data := by unfold FragOK; decide
theorem fragOK_sF26_0 : FragOK sF26_0.data := by unfold FragOK; decide
theorem fragOK_sF27_0 : FragOK sF27_0.data := by unfold FragOK; decide
theorem fragOK_sF28_0 : FragOK sF28_0.data := by unfold FragOK; decide
theorem fragOK_sF29_0 : FragOK sF29_0.data := by unfold FragOK; decide
theorem fragOK_sF30_0 : FragOK sF30_0.data := by unfold FragOK; decide
theorem fragOK_sF31_0 : FragOK sF31_0.data := by unfold FragOK; decide
theorem fragOK_sF32_0 : FragOK sF32_0.data := by unfold FragOK; decide
theorem fragOK_hF0 : FragOK hF0.data := by unfold FragOK; decide
theorem fragOK_hF1_p0 : FragOK hF1_p0.data := by unfold FragOK; decide
theorem fragOK_hF1_p1 : FragOK hF1_p1.data := by unfold FragOK; decide
theorem fragOK_hF1_p2 : FragOK hF1_p2.data := by unfold FragOK; decide
theorem fragOK_hF1_p3 : FragOK hF1_p3.data := by unfold FragOK; decide
theorem fragOK_hF1_p4 : FragOK hF1_p4.data := by unfold FragOK; decide
theorem fragOK_hF1_p5 : FragOK hF1_p5.data := by unfold FragOK; decide
theorem fragOK_hF1_p6 : FragOK hF1_p6.data := by unfold FragOK; decide
theorem fragOK_hF1_p7 : FragOK hF1_p7.data := by unfold FragOK; decide
theorem fragOK_hF1_p8 : FragOK hF1_p8.data := by unfold FragOK; decide
theorem fragOK_hF1_p9 : FragOK hF1_p9.data := by unfold FragOK; decide
theorem fragOK_hF1_p10 : FragOK hF1_p10.data := by unfold FragOK; decide
theorem fragOK_hF1_p11 : FragOK hF1_p11.data := by unfold FragOK; decide
theorem fragOK_hF1_p12 : FragOK hF1_p12.data := by unfold FragOK; decide
theorem fragOK_hF1_p13 : FragOK hF1_p13.data := by unfold FragOK; decide
theorem fragOK_hF1_p14 : FragOK hF1_p14.data := by unfold FragOK; decide
theorem fragOK_hF1_p15 : FragOK hF1_p15.data := by unfold FragOK; decide
theorem fragOK_hF1_p16 : FragOK hF1_p16.data := by unfold FragOK; decide
theorem fragOK_hF1_p17 : FragOK hF1_p17.data := by unfold FragOK; decide
theorem fragOK_hF1_p18 : FragOK hF1_p18.data := by unfold FragOK; decide
theorem fragOK_hF1_p19 : FragOK hF1_p19.data := by unfold FragOK; decide
theorem fragOK_hF1_p20 : FragOK hF1_p20.data := by unfold FragOK; decide
theorem fragOK_hF1_p21 : FragOK hF1_p21.data := by unfold FragOK; decide
theorem fragOK_hF1_p22 : FragOK hF1_p22.data := by unfold FragOK; decide
theorem fragOK_hF1_p23 : FragOK hF1_p23.data := by unfold FragOK; decide
theorem fragOK_hF1_p24 : FragOK hF1_p24.data := by unfold FragOK; decide
theorem fragOK_hF1_p25 : FragOK hF1_p25.data := by unfold FragOK; decide
theorem fragOK_hF2 : FragOK hF2.data := by unfold FragOK; decide
theorem fragOK_hF3 : FragOK hF3.data := by unfold FragOK; decide
theorem fragOK_hF4 : FragOK hF4.data := by unfold FragOK; decide
theorem fragOK_hF5 : FragOK hF5.data := by unfold FragOK; decide
theorem fragOK_hF6 : FragOK hF6.data := by unfold FragOK; decide
theorem fragOK_hF7 : FragOK hF7.data := by unfold FragOK; decide
theorem fragOK_hF8 : FragOK hF8.data := by unfold FragOK; decide
theorem fragOK_hF9 : FragOK hF9.data := by unfold FragOK; decide
theorem fragOK_hF10 : FragOK hF10.data := by unfold FragOK; decide
theorem fragOK_hF11_p0 : FragOK hF11_p0.data := by unfold FragOK; decide
theorem fragOK_hF11_p1 : FragOK hF11_p1.data := by unfold FragOK; decide
theorem fragOK_hF12_p0 : FragOK hF12_p0.data := by unfold FragOK; decide
theorem fragOK_hF12_p1 : FragOK hF12_p1.data := by unfold FragOK; decide
theorem fragOK_hF12_p2 : FragOK hF12_p2.data := by unfold FragOK; decide
theorem fragOK_hF12_p3 : FragOK hF12_p3.data := by unfold FragOK; decide
theorem fragOK_hF12_p4 : FragOK hF12_p4.data := by unfold FragOK; decide
theorem fragOK_hF12_p5 : FragOK hF12_p5.data := by unfold FragOK; decide
theorem fragOK_hF12_p6 : FragOK hF12_p6.data := by unfold FragOK; decide
theorem fragOK_hF12_p7 : FragOK hF12_p7.data := by unfold FragOK; decide
theorem fragOK_hF12_p8 : FragOK hF12_p8.data := by unfold FragOK; decide
theorem fragOK_hF12_p9 : FragOK hF12_p9.data := by unfold FragOK; decide
theorem fragOK_hF12_p10 : FragOK hF12_p10.data := by unfold FragOK; decide
theorem fragOK_hF12_p11 : FragOK hF12_p11.data := by unfold FragOK; decide
theorem fragOK_hF12_p12 : FragOK hF12_p12.data := by unfold FragOK; decide
theorem fragOK_hF12_p13 : FragOK hF12_p13.data := by unfold FragOK; decide
theorem fragOK_hF12_p14 : FragOK hF12_p14.data := by unfold FragOK; decide
theorem fragOK_hF12_p15 : FragOK hF12_p15.data := by unfold FragOK; decide
theorem fragOK_hF12_p16 : FragOK hF12_p16.data := by unfold FragOK; decide
theorem fragOK_hF12_p17 : FragOK hF12_p17.data := by unfold FragOK; decide
theorem fragOK_hF12_p18 : FragOK hF12_p18.data := by unfold FragOK; decide
theorem fragOK_hF12_p19 : FragOK hF12_p19.data := by unfold FragOK; decide
theorem fragOK_hF12_p20 : FragOK hF12_p20.data := by unfold FragOK; decide
theorem fragOK_hF12_p21 : FragOK hF12_p21.data := by unfold FragOK; decide
theorem fragOK_hF12_p22 : FragOK hF12_p22.data := by unfold FragOK; decide
theorem fragOK_hF12_p23 : FragOK hF12_p23.data := by unfold FragOK; decide
theorem fragOK_hF12_p24 : FragOK hF12_p24.data := by unfold FragOK; decide
theorem fragOK_hF12_p25 : FragOK hF12_p25.data := by unfold FragOK; decide
theorem fragOK_hF12_p26 : FragOK hF12_p26.data := by unfold FragOK; decide
theorem fragOK_hF12_p27 : FragOK hF12_p27.data := by unfold FragOK; decide
theorem fragOK_hF12_p28 : FragOK hF12_p28.data := by unfold FragOK; decide
theorem fragOK_hF12_p29 : FragOK hF12_p29.data := by unfold FragOK; decide
theorem fragOK_hF12_p30 : FragOK hF12_p30.data := by unfold FragOK; decide
theorem fragOK_hF12_p31 : FragOK hF12_p31.data := by unfold FragOK; decide
theorem fragOK_hF12_p32 : FragOK hF12_p32.data := by unfold FragOK; decide
theorem fragOK_hF12_p33 : FragOK hF12_p33.data := by unfold FragOK; decide

theorem noBadS_dF0 : NoBadS dF0 := noBadS_of_fragOK fragOK_dF0
theorem noBadS_dF1 : NoBadS dF1 := noBadS_of_fragOK fragOK_dF1
theorem noBadS_dF2 : NoBadS dF2 := noBadS_of_fragOK fragOK_dF2
theorem noBadS_dF3 : NoBadS dF3 := noBadS_of_fragOK fragOK_dF3
theorem noBadS_dF4 : NoBadS dF4 := noBadS_of_fragOK fragOK_dF4
theorem noBadS_rF0 : NoBadS rF0 := noBadS_of_fragOK fragOK_rF0
theorem noBadS_rF1 : NoBadS rF1 := noBadS_of_fragOK fragOK_rF1
theorem noBadS_rF2 : NoBadS rF2 := noBadS_of_fragOK fragOK_rF2
theorem noBadS_rF3 : NoBadS rF3 := noBadS_of_fragOK fragOK_rF3
theorem noBadS_rF4 : NoBadS rF4 := noBadS_of_fragOK fragOK_rF4
theorem noBadS_rF5 : NoBadS rF5 := noBadS_of_fragOK fragOK_rF5
theorem noBadS_rF6 : NoBadS rF6 := noBadS_of_fragOK fragOK_rF6
theorem noBadS_rF7 : NoBadS rF7 := noBadS_of_fragOK fragOK_rF7
theorem noBadS_rF8 : NoBadS rF8 := noBadS_of_fragOK fragOK_rF8
theorem noBadS_rF9 : NoBadS rF9 := noBadS_of_fragOK fragOK_rF9
theorem noBadS_rF10 : NoBadS rF10 := noBadS_of_fragOK fragOK_rF10
theorem noBadS_rF11 : NoBadS rF11 := noBadS_of_fragOK fragOK_rF11
theorem noBadS_rF12 : NoBadS rF12 := noBadS_of_fragOK fragOK_rF12
theorem noBadS_rF13 : NoBadS rF13 := noBadS_of_fragOK fragOK_rF13
theorem noBadS_rF14 : NoBadS rF14 := noBadS_of_fragOK fragOK_rF14
theorem noBadS_mF0_0 : NoBadS mF0_0 := noBadS_of_fragOK fragOK_mF0_0
theorem noBadS_mF0_1 : NoBadS mF0_1 := noBadS_of_fragOK fragOK_mF0_1
theorem noBadS_mF0_2 : NoBadS mF0_2 := noBadS_of_fragOK fragOK_mF0_2
theorem noBadS_mF0_3 : NoBadS mF0_3 := noBadS_of_fragOK fragOK_mF0_3
theorem noBadS_mF0_4 : NoBadS mF0_4 := noBadS_of_fragOK fragOK_mF0_4
theorem noBadS_mF0_5 : NoBadS mF0_5 := noBadS_of_fragOK fragOK_mF0_5
theorem noBadS_mF0_6 : NoBadS mF0_6 := noBadS_of_fragOK fragOK_mF0_6
theorem noBadS_mF0_7 : NoBadS mF0_7 := noBadS_of_fragOK fragOK_mF0_7
theorem noBadS_mF0_8 : NoBadS mF0_8 := noBadS_of_fragOK fragOK_mF0_8
theorem noBadS_mF0_9 : NoBadS mF0_9 := noBadS_of_fragOK fragOK_mF0_9
theorem noBadS_mF1_0 : NoBadS mF1_0 := noBadS_of_fragOK fragOK_mF1_0
theorem noBadS_mF1_1 : NoBadS mF1_1 := noBadS_of_fragOK fragOK_mF1_1
theorem noBadS_mF1_2 : NoBadS mF1_2 := noBadS_of_fragOK fragOK_mF1_2
theorem noBadS_mF1_3 : NoBadS mF1_3 := noBadS_of_fragOK fragOK_mF1_3
theorem noBadS_mF1_4 : NoBadS mF1_4 := noBadS_of_fragOK fragOK_mF1_4
theorem noBadS_mF1_5 : NoBadS mF1_5 := noBadS_of_fragOK fragOK_mF1_5
theorem noBadS_mF1_6 : NoBadS mF1_6 := noBadS_of_fragOK fragOK_mF1_6
theorem noBadS_mF1_7 : NoBadS mF1_7 := noBadS_of_fragOK fragOK_mF1_7
theorem noBadS_mF1_8 : NoBadS mF1_8 := noBadS_of_fragOK fragOK_mF1_8
theorem noBadS_mF1_9 : NoBadS mF1_9 := noBadS_of_fragOK fragOK_mF1_9
theorem noBadS_mF1_10 : NoBadS mF1_10 := noBadS_of_fragOK fragOK_mF1_10
theorem noBadS_mF1_11 : NoBadS mF1_11 := noBadS_of_fragOK fragOK_mF1_11
theorem noBadS_mF3_0 : NoBadS mF3_0 := noBadS_of_fragOK fragOK_mF3_0
theorem noBadS_mF4_0 : NoBadS mF4_0 := noBadS_of_fragOK fragOK_mF4_0
theorem noBadS_sF0_0 : NoBadS sF0_0 := noBadS_of_fragOK fragOK_sF0_0
theorem noBadS_sF1_0 : NoBadS sF1_0 := noBadS_of_fragOK fragOK_sF1_0
theorem noBadS_sF2_0 : NoBadS sF2_0 := noBadS_of_fragOK fragOK_sF2_0
theorem noBadS_sF3_0 : NoBadS sF3_0 := noBadS_of_fragOK fragOK_sF3_0
theorem noBadS_sF4_0 : NoBadS sF4_0 := noBadS_of_fragOK fragOK_sF4_0
theorem noBadS_sF4_1 : NoBadS sF4_1 := noBadS_of_fragOK fragOK_sF4_1
theorem noBadS_sF5_0 : NoBadS sF5_0 := noBadS_of_fragOK fragOK_sF5_0
theorem noBadS_sF6_0 : NoBadS sF6_0 := noBadS_of_fragOK fragOK_sF6_0
theorem noBadS_sF7_0 : NoBadS sF7_0 := noBadS_of_fragOK fragOK_sF7_0
theorem noBadS_sF7_1 : NoBadS sF7_1 := noBadS_of_fragOK fragOK_sF7_1
theorem noBadS_sF8_0 : NoBadS sF8_0 := noBadS_of_fragOK fragOK_sF8_0
theorem noBadS_sF8_1 : NoBadS sF8_1 := noBadS_of_fragOK fragOK_sF8_1
theorem noBadS_sF9_0 : NoBadS sF9_0 := noBadS_of_fragOK fragOK_sF9_0
theorem noBadS_sF10_0 : NoBadS sF10_0 := noBadS_of_fragOK fragOK_sF10_0
theorem noBadS_sF11_0 : NoBadS sF11_0 := noBadS_of_fragOK fragOK_sF11_0
theorem noBadS_sF11_1 : NoBadS sF11_1 := noBadS_of_fragOK fragOK_sF11_1
theorem noBadS_sF12_0 : NoBadS sF12_0 := noBadS_of_fragOK fragOK_sF12_0
theorem noBadS_sF13_0 : NoBadS sF13_0 := noBadS_of_fragOK fragOK_sF13_0
theorem noBadS_sF14_0 : NoBadS sF14_0 := noBadS_of_fragOK fragOK_sF14_0
theorem noBadS_sF14_1 : NoBadS sF14_1 := noBadS_of_fragOK fragOK_sF14_1
theorem noBadS_sF14_2 : NoBadS sF14_2 := noBadS_of_fragOK fragOK_sF14_2
theorem noBadS_sF15_0 : NoBadS sF15_0 := noBadS_of_fragOK fragOK_sF15_0
theorem noBadS_sF15_1 : NoBadS sF15_1 := noBadS_of_fragOK fragOK_sF15_1
theorem noBadS_sF15_2 : NoBadS sF15_2 := noBadS_of_fragOK fragOK_sF15_2
theorem noBadS_sF16_0 : NoBadS sF16_0 := noBadS_of_fragOK fragOK_sF16_0
theorem noBadS_sF17_0 : NoBadS sF17_0 := noBadS_of_fragOK fragOK_sF17_0
theorem noBadS_sF18_0 : NoBadS sF18_0 := noBadS_of_fragOK fragOK_sF18_0
theorem noBadS_sF18_1 : NoBadS sF18_1 := noBadS_of_fragOK fragOK_sF18_1
theorem noBadS_sF19_0 : NoBadS sF19_0 := noBadS_of_fragOK fragOK_sF19_0
theorem noBadS_sF20_0 : NoBadS sF20_0 := noBadS_of_fragOK fragOK_sF20_0
theorem noBadS_sF21_0 : NoBadS sF21_0 := noBadS_of_fragOK fragOK_sF21_0
theorem noBadS_sF21_1 : NoBadS sF21_1 := noBadS_of_fragOK fragOK_sF21_1
theorem noBadS_sF21_2 : NoBadS sF21_2 := noBadS_of_fragOK fragOK_sF21_2
theorem noBadS_sF21_3 : NoBadS sF21_3 := noBadS_of_fragOK fragOK_sF21_3
theorem noBadS_sF22_0 : NoBadS sF22_0 := noBadS_of_fragOK fragOK_sF22_0
theorem noBadS_sF22_1 : NoBadS sF22_1 := noBadS_of_fragOK fragOK_sF22_1
theorem noBadS_sF22_2 : NoBadS sF22_2 := noBadS_of_fragOK fragOK_sF22_2
theorem noBadS_sF22_3 : NoBadS sF22_3 := noBadS_of_fragOK fragOK_sF22_3
theorem noBadS_sF23_0 : NoBadS sF23_0 := noBadS_of_fragOK fragOK_sF23_0
theorem noBadS_sF24_0 : NoBadS sF24_0 := noBadS_of_fragOK fragOK_sF24_0
theorem noBadS_sF24_1 : NoBadS sF24_1 := noBadS_of_fragOK fragOK_sF24_1
theorem noBadS_sF25_0 : NoBadS sF25_0 := noBadS_of_fragOK fragOK_sF25_0
theorem noBadS_sF26_0 : NoBadS sF26_0 := noBadS_of_fragOK fragOK_sF26_0
theorem noBadS_sF27_0 : NoBadS sF27_0 := noBadS_of_fragOK fragOK_sF27_0
theorem noBadS_sF28_0 : NoBadS sF28_0 := noBadS_of_fragOK fragOK_sF28_0
theorem noBadS_sF29_0 : NoBadS sF29_0 := noBadS_of_fragOK fragOK_sF29_0
theorem noBadS_sF30_0 : NoBadS sF30_0 := noBadS_of_fragOK fragOK_sF30_0
theorem noBadS_sF31_0 : NoBadS sF31_0 := noBadS_of_fragOK fragOK_sF31_0
theorem noBadS_sF32_0 : NoBadS sF32_0 := noBadS_of_fragOK fragOK_sF32_0
theorem noBadS_hF0 : NoBadS hF0 := noBadS_of_fragOK fragOK_hF0
theorem noBadS_hF1_p0 : NoBadS hF1_p0 := noBadS_of_fragOK fragOK_hF1_p0
theorem noBadS_hF1_p1 : NoBadS hF1_p1 := noBadS_of_fragOK fragOK_hF1_p1
theorem noBadS_hF1_p2 : NoBadS hF1_p2 := noBadS_of_fragOK fragOK_hF1_p2
theorem noBadS_hF1_p3 : NoBadS hF1_p3 := noBadS_of_fragOK fragOK_hF1_p3
theorem noBadS_hF1_p4 : NoBadS hF1_p4 := noBadS_of_fragOK fragOK_hF1_p4
theorem noBadS_hF1_p5 : NoBadS hF1_p5 := noBadS_of_fragOK fragOK_hF1_p5
theorem noBadS_hF1_p6 : NoBadS hF1_p6 := noBadS_of_fragOK fragOK_hF1_p6
theorem noBadS_hF1_p7 : NoBadS hF1_p7 := noBadS_of_fragOK fragOK_hF1_p7
theorem noBadS_hF1_p8 : NoBadS hF1_p8 := noBadS_of_fragOK fragOK_hF1_p8
theorem noBadS_hF1_p9 : NoBadS hF1_p9 := noBadS_of_fragOK fragOK_hF1_p9
theorem noBadS_hF1_p10 : NoBadS hF1_p10 := noBadS_of_fragOK fragOK_hF1_p10
theorem noBadS_hF1_p11 : NoBadS hF1_p11 := noBadS_of_fragOK fragOK_hF1_p11
theorem noBadS_hF1_p12 : NoBadS hF1_p12 := noBadS_of_fragOK fragOK_hF1_p12
theorem noBadS_hF1_p13 : NoBadS hF1_p13 := noBadS_of_fragOK fragOK_hF1_p13
theorem noBadS_hF1_p14 : NoBadS hF1_p14 := noBadS_of_fragOK fragOK_hF1_p14
theorem noBadS_hF1_p15 : NoBadS hF1_p15 := noBadS_of_fragOK fragOK_hF1_p15
theorem noBadS_hF1_p16 : NoBadS hF1_p16 := noBadS_of_fragOK fragOK_hF1_p16
theorem noBadS_hF1_p17 : NoBadS hF1_p17 := noBadS_of_fragOK fragOK_hF1_p17
theorem noBadS_hF1_p18 : NoBadS hF1_p18 := noBadS_of_fragOK fragOK_hF1_p18
theorem noBadS_hF1_p19 : NoBadS hF1_p19 := noBadS_of_fragOK fragOK_hF1_p19
theorem noBadS_hF1_p20 : NoBadS hF1_p20 := noBadS_of_fragOK fragOK_hF1_p20
theorem noBadS_hF1_p21 : NoBadS hF1_p21 := noBadS_of_fragOK fragOK_hF1_p21
theorem noBadS_hF1_p22 : NoBadS hF1_p22 := noBadS_of_fragOK fragOK_hF1_p22
theorem noBadS_hF1_p23 : NoBadS hF1_p23 := noBadS_of_fragOK fragOK_hF1_p23
theorem noBadS_hF1_p24 : NoBadS hF1_p24 := noBadS_of_fragOK fragOK_hF1_p24
theorem noBadS_hF1_p25 : NoBadS hF1_p25 := noBadS_of_fragOK fragOK_hF1_p25
theorem noBadS_hF2 : NoBadS hF2 := noBadS_of_fragOK fragOK_hF2
theorem noBadS_hF3 : NoBadS hF3 := noBadS_of_fragOK fragOK_hF3
theorem noBadS_hF4 : NoBadS hF4 := noBadS_of_fragOK fragOK_hF4
theorem noBadS_hF5 : NoBadS hF5 := noBadS_of_fragOK fragOK_hF5
theorem noBadS_hF6 : NoBadS hF6 := noBadS_of_fragOK fragOK_hF6
theorem noBadS_hF7 : NoBadS hF7 := noBadS_of_fragOK fragOK_hF7
theorem noBadS_hF8 : NoBadS hF8 := noBadS_of_fragOK fragOK_hF8
theorem noBadS_hF9 : NoBadS hF9 := noBadS_of_fragOK fragOK_hF9
theorem noBadS_hF10 : NoBadS hF10 := noBadS_of_fragOK fragOK_hF10
theorem noBadS_hF11_p0 : NoBadS hF11_p0 := noBadS_of_fragOK fragOK_hF11_p0
theorem noBadS_hF11_p1 : NoBadS hF11_p1 := noBadS_of_fragOK fragOK_hF11_p1
theorem noBadS_hF12_p0 : NoBadS hF12_p0 := noBadS_of_fragOK fragOK_hF12_p0
theorem noBadS_hF12_p1 : NoBadS hF12_p1 := noBadS_of_fragOK fragOK_hF12_p1
theorem noBadS_hF12_p2 : NoBadS hF12_p2 := noBadS_of_fragOK fragOK_hF12_p2
theorem noBadS_hF12_p3 : NoBadS hF12_p3 := noBadS_of_fragOK fragOK_hF12_p3
theorem noBadS_hF12_p4 : NoBadS hF12_p4 := noBadS_of_fragOK fragOK_hF12_p4
theorem noBadS_hF12_p5 : NoBadS hF12_p5 := noBadS_of_fragOK fragOK_hF12_p5
theorem noBadS_hF12_p6 : NoBadS hF12_p6 := noBadS_of_fragOK fragOK_hF12_p6
theorem noBadS_hF12_p7 : NoBadS hF12_p7 := noBadS_of_fragOK fragOK_hF12_p7
theorem noBadS_hF12_p8 : NoBadS hF12_p8 := noBadS_of_fragOK fragOK_hF12_p8
theorem noBadS_hF12_p9 : NoBadS hF12_p9 := noBadS_of_fragOK fragOK_hF12_p9
theorem noBadS_hF12_p10 : NoBadS hF12_p10 := noBadS_of_fragOK fragOK_hF12_p10
theorem noBadS_hF12_p11 : NoBadS hF12_p11 := noBadS_of_fragOK fragOK_hF12_p11
theorem noBadS_hF12_p12 : NoBadS hF12_p12 := noBadS_of_fragOK fragOK_hF12_p12
theorem noBadS_hF12_p13 : NoBadS hF12_p13 := noBadS_of_fragOK fragOK_hF12_p13
theorem noBadS_hF12_p14 : NoBadS hF12_p14 := noBadS_of_fragOK fragOK_hF12_p14
theorem noBadS_hF12_p15 : NoBadS hF12_p15 := noBadS_of_fragOK fragOK_hF12_p15
theorem noBadS_hF12_p16 : NoBadS hF12_p16 := noBadS_of_fragOK fragOK_hF12_p16
theorem noBadS_hF12_p17 : NoBadS hF12_p17 := noBadS_of_fragOK fragOK_hF12_p17
theorem noBadS_hF12_p18 : NoBadS hF12_p18 := noBadS_of_fragOK fragOK_hF12_p18
theorem noBadS_hF12_p19 : NoBadS hF12_p19 := noBadS_of_fragOK fragOK_hF12_p19
theorem noBadS_hF12_p20 : NoBadS hF12_p20 := noBadS_of_fragOK fragOK_hF12_p20
theorem noBadS_hF12_p21 : NoBadS hF12_p21 := noBadS_of_fragOK fragOK_hF12_p21
theorem noBadS_hF12_p22 : NoBadS hF12_p22 := noBadS_of_fragOK fragOK_hF12_p22
theorem noBadS_hF12_p23 : NoBadS hF12_p23 := noBadS_of_fragOK fragOK_hF12_p23
theorem noBadS_hF12_p24 : NoBadS hF12_p24 := noBadS_of_fragOK fragOK_hF12_p24
theorem noBadS_hF12_p25 : NoBadS hF12_p25 := noBadS_of_fragOK fragOK_hF12_p25
theorem noBadS_hF12_p26 : NoBadS hF12_p26 := noBadS_of_fragOK fragOK_hF12_p26
theorem noBadS_hF12_p27 : NoBadS hF12_p27 := noBadS_of_fragOK fragOK_hF12_p27
theorem noBadS_hF12_p28 : NoBadS hF12_p28 := noBadS_of_fragOK fragOK_hF12_p28
theorem noBadS_hF12_p29 : NoBadS hF12_p29 := noBadS_of_fragOK fragOK_hF12_p29
theorem noBadS_hF12_p30 : NoBadS hF12_p30 := noBadS_of_fragOK fragOK_hF12_p30
theorem noBadS_hF12_p31 : NoBadS hF12_p31 := noBadS_of_fragOK fragOK_hF12_p31
theorem noBadS_hF12_p32 : NoBadS hF12_p32 := noBadS_of_fragOK fragOK_hF12_p32
theorem noBadS_hF12_p33 : NoBadS hF12_p33 := noBadS_of_fragOK fragOK_hF12_p33

theorem noBadS_hF1 : NoBadS hF1 := noBadS_append (noBadS_append (noBadS_append (noBadS_append (noBadS_append (noBadS_append (noBadS_append (noBadS_append (noBadS_append (noBadS_append (noBadS_append (noBadS_append (noBadS_append (noBadS_append (noBadS_append (noBadS_append (noBadS_append (noBadS_append (noBadS_append (noBadS_append (noBadS_append (noBadS_append (noBadS_append (noBadS_append (noBadS_append (noBadS_hF1_p0) noBadS_hF1_p1) noBadS_hF1_p2) noBadS_hF1_p3) noBadS_hF1_p4) noBadS_hF1_p5) noBadS_hF1_p6) noBadS_hF1_p7) noBadS_hF1_p8) noBadS_hF1_p9) noBadS_hF1_p10) noBadS_hF1_p11) noBadS_hF1_p12) noBadS_hF1_p13) noBadS_hF1_p14) noBadS_hF1_p15) noBadS_hF1_p16) noBadS_hF1_p17) noBadS_hF1_p18) noBadS_hF1_p19) noBadS_hF1_p20) noBadS_hF1_p21) noBadS_hF1_p22) noBadS_hF1_p23) noBadS_hF1_p24) noBadS_hF1_p25
theorem noBadS_hF11 : NoBadS hF11 := noBadS_append (noBadS_hF11_p0) noBadS_hF11_p1
theorem noBadS_hF12 : NoBadS hF12 := noBadS_append (noBadS_append (noBadS_append (noBadS_append (noBadS_append (noBadS_append (noBadS_append (noBadS_append (noBadS_append (noBadS_append (noBadS_append (noBadS_append (noBadS_append (noBadS_append (noBadS_append (noBadS_append (noBadS_append (noBadS_append (noBadS_append (noBadS_append (noBadS_append (noBadS_append (noBadS_append (noBadS_append (noBadS_append (noBadS_append (noBadS_append (noBadS_append (noBadS_append (noBadS_append (noBadS_append (noBadS_append (noBadS_append (noBadS_hF12_p0) noBadS_hF12_p1) noBadS_hF12_p2) noBadS_hF12_p3) noBadS_hF12_p4) noBadS_hF12_p5) noBadS_hF12_p6) noBadS_hF12_p7) noBadS_hF12_p8) noBadS_hF12_p9) noBadS_hF12_p10) noBadS_hF12_p11) noBadS_hF12_p12) noBadS_hF12_p13) noBadS_hF12_p14) noBadS_hF12_p15) noBadS_hF12_p16) noBadS_hF12_p17) noBadS_hF12_p18) noBadS_hF12_p19) noBadS_hF12_p20) noBadS_hF12_p21) noBadS_hF12_p22) noBadS_hF12_p23) noBadS_hF12_p24) noBadS_hF12_p25) noBadS_hF12_p26) noBadS_hF12_p27) noBadS_hF12_p28) noBadS_hF12_p29) noBadS_hF12_p30) noBadS_hF12_p31) noBadS_hF12_p32) noBadS_hF12_p33

theorem pill_class_map_eq {s : String} (h : s ∈ statusKeys) :
    pill_class_map s = some s := by
  fin_cases h <;> rfl

theorem noBadS_status {s : String} (h : s ∈ statusKeys) : NoBadS s := by
  fin_cases h <;> exact noBadS_safe (by decide) (by decide)

theorem noBadS_label_of {s : String} (h : s ∈ statusKeys) :
    NoBadS (label_of s) := by
  fin_cases h <;> exact noBadS_safe (by decide) (by decide)

theorem status_of_caseRecord (sn : String) (rc : RawCase) :
    (caseRecord sn rc).status ∈ statusKeys := by
  show _get_test_status rc ∈ statusKeys
  unfold _get_test_status
  cases rc.result with
  | nil => simp [statusKeys]
  | cons r rs =>
    rcases r with ⟨kind, msg, txt⟩
    cases kind <;> simp [statusKeys]

theorem parse_wf (files : List (String × List RawSuite)) :
    WFStatuses (parse_files files) := by
  intro c hc
  simp only [parse_files] at hc
  rcases List.mem_flatMap.1 hc with ⟨pf, _, hc2⟩
  rcases List.mem_flatMap.1 hc2 with ⟨s, _, hc3⟩
  rcases List.mem_map.1 hc3 with ⟨rc, _, rfl⟩
  exact status_of_caseRecord _ rc

theorem noBadS_hasDetailsCls : NoBadS " has-details" :=
  noBadS_safe (by decide) (by decide)

theorem noBadS_details_core {c : CaseRow} (h : c.status ∈ statusKeys) :
    NoBadS (details_core c.status c) := by
  unfold details_core
  exact noBadS_append (noBadS_append (noBadS_append (noBadS_append (noBadS_append (noBadS_append (noBadS_append (noBadS_append noBadS_dF0 (noBadS_status h)) noBadS_dF1) (noBadS_label_of h)) noBadS_dF2) (noBadS_escape _)) noBadS_dF3) (noBadS_escape _)) noBadS_dF4

theorem noBadS_row_core {c : CaseRow} (h : c.status ∈ statusKeys) :
    NoBadS (row_core c.status c) := by
  unfold row_core
  by_cases hd : need_details c
  · simp only [hd, if_true]
    exact noBadS_append (noBadS_append (noBadS_append (noBadS_append (noBadS_append (noBadS_append (noBadS_append (noBadS_append (noBadS_append (noBadS_append (noBadS_append (noBadS_append (noBadS_append (noBadS_append (noBadS_append (noBadS_append (noBadS_append (noBadS_append (noBadS_append (noBadS_append (noBadS_append (noBadS_append (noBadS_append (noBadS_append (noBadS_append (noBadS_append (noBadS_append (noBadS_append noBadS_rF0 noBadS_hasDetailsCls) noBadS_rF1) (noBadS_escape _)) noBadS_rF2) (noBadS_escape _)) noBadS_rF3) (noBadS_escape _)) noBadS_rF4) (noBadS_status h)) noBadS_rF5) (noBadS_label_of h)) noBadS_rF6) (noBadS_escape _)) noBadS_rF7) (noBadS_escape _)) noBadS_rF8) (noBadS_escape _)) noBadS_rF9) (noBadS_escape _)) noBadS_rF10) (noBadS_escape _)) noBadS_rF11) (noBadS_escape _)) noBadS_rF12) (noBadS_seconds_fmt _)) noBadS_rF13) (noBadS_details_core h)) noBadS_rF14
  · simp only [hd, if_false]
    exact noBadS_append (noBadS_append (noBadS_append (noBadS_append (noBadS_append (noBadS_append (noBadS_append (noBadS_append (noBadS_append (noBadS_append (noBadS_append (noBadS_append (noBadS_append (noBadS_append (noBadS_append (noBadS_append (noBadS_append (noBadS_append (noBadS_append (noBadS_append (noBadS_append (noBadS_append (noBadS_append (noBadS_append (noBadS_append (noBadS_append (noBadS_append (noBadS_append noBadS_rF0 noBadS_empty) noBadS_rF1) (noBadS_escape _)) noBadS_rF2) (noBadS_escape _)) noBadS_rF3) (noBadS_escape _)) noBadS_rF4) (noBadS_status h)) noBadS_rF5) (noBadS_label_of h)) noBadS_rF6) (noBadS_escape _)) noBadS_rF7) (noBadS_escape _)) noBadS_rF8) (noBadS_escape _)) noBadS_rF9) (noBadS_escape _)) noBadS_rF10) (noBadS_escape _)) noBadS_rF11) (noBadS_escape _)) noBadS_rF12) (noBadS_seconds_fmt _)) noBadS_rF13) noBadS_empty) noBadS_rF14

theorem noBadS_suite_header (suite : String) (st : SubTotals) :
    NoBadS (suite_header_html suite st) := by
  unfold suite_header_html
  exact noBadS_append (noBadS_append (noBadS_append (noBadS_append (noBadS_append (noBadS_append (noBadS_append (noBadS_append (noBadS_append (noBadS_append (noBadS_append (noBadS_append (noBadS_append (noBadS_append (noBadS_append (noBadS_append (noBadS_append (noBadS_append noBadS_mF0_0 (noBadS_escape _)) noBadS_mF0_1) (noBadS_escape _)) noBadS_mF0_2) (noBadS_escape _)) noBadS_mF0_3) (noBadS_natRepr _)) noBadS_mF0_4) (noBadS_natRepr _)) noBadS_mF0_5) (noBadS_natRepr _)) noBadS_mF0_6) (noBadS_natRepr _)) noBadS_mF0_7) (noBadS_natRepr _)) noBadS_mF0_8) (noBadS_seconds_fmt _)) noBadS_mF0_9

theorem noBadS_class_header (suite classname : String) (ct : SubTotals) :
    NoBadS (class_header_html suite classname ct) := by
  unfold class_header_html
  exact noBadS_append (noBadS_append (noBadS_append (noBadS_append (noBadS_append (noBadS_append (noBadS_append (noBadS_append (noBadS_append (noBadS_append (noBadS_append (noBadS_append (noBadS_append (noBadS_append (noBadS_append (noBadS_append (noBadS_append (noBadS_append (noBadS_append (noBadS_append (noBadS_append (noBadS_append noBadS_mF1_0 (noBadS_escape _)) noBadS_mF1_1) (noBadS_escape _)) noBadS_mF1_2) (noBadS_escape _)) noBadS_mF1_3) (noBadS_escape _)) noBadS_mF1_4) (noBadS_escape _)) noBadS_mF1_5) (noBadS_natRepr _)) noBadS_mF1_6) (noBadS_natRepr _)) noBadS_mF1_7) (noBadS_natRepr _)) noBadS_mF1_8) (noBadS_natRepr _)) noBadS_mF1_9) (noBadS_natRepr _)) noBadS_mF1_10) (noBadS_seconds_fmt _)) noBadS_mF1_11

theorem noBadS_rows_html_str {cc : List CaseRow}
    (h : ∀ c ∈ cc, c.status ∈ statusKeys) : NoBadS (rows_html_str cc) := by
  unfold rows_html_str
  refine noBadS_foldl noBadS_empty ?_
  intro s hs
  rcases List.mem_map.1 hs with ⟨c, hc, rfl⟩
  exact noBadS_row_core (h c (mem_sortCasesByName.1 hc))

theorem noBadS_class_section_str (suite classname : String) {cc : List CaseRow}
    (h : ∀ c ∈ cc, c.status ∈ statusKeys) :
    NoBadS (class_section_str suite classname cc) := by
  unfold class_section_str
  exact noBadS_append (noBadS_append (noBadS_class_header _ _ _)
    (noBadS_rows_html_str h)) noBadS_mF3_0

theorem noBadS_suite_section_str (suite : String) {scases : List CaseRow}
    (h : ∀ c ∈ scases, c.status ∈ statusKeys) :
    NoBadS (suite_section_str suite scases) := by
  unfold suite_section_str
  refine noBadS_append (noBadS_append (noBadS_suite_header _ _) ?_) noBadS_mF4_0
  refine noBadS_foldl noBadS_empty ?_
  intro s hs
  rcases List.mem_map.1 hs with ⟨k, _, rfl⟩
  refine noBadS_class_section_str _ _ ?_
  intro c hc
  exact h c (List.mem_filter.1 hc).1

theorem noBadS_main_content_str {data : ParseData} (h : WFStatuses data) :
    NoBadS (main_content_str data) := by
  unfold main_content_str
  refine noBadS_foldl noBadS_empty ?_
  intro s hs
  rcases List.mem_map.1 hs with ⟨k, _, rfl⟩
  refine noBadS_suite_section_str _ ?_
  intro c hc
  exact h c (List.mem_filter.1 hc).1

theorem noBadS_sidebar_case (suite classname name : String) :
    NoBadS (sidebar_case_html suite classname name) := by
  unfold sidebar_case_html
  exact noBadS_append (noBadS_append (noBadS_append (noBadS_append (noBadS_append (noBadS_append (noBadS_append (noBadS_append (noBadS_append (noBadS_append (noBadS_append (noBadS_append (noBadS_append (noBadS_append (noBadS_append (noBadS_append (noBadS_append (noBadS_append (noBadS_append noBadS_sF21_0 (noBadS_escape _)) noBadS_sF21_1) (noBadS_escape _)) noBadS_sF21_2) (noBadS_escape _)) noBadS_sF21_3) noBadS_sF22_0) (noBadS_escape _)) noBadS_sF22_1) (noBadS_escape _)) noBadS_sF22_2) (noBadS_escape _)) noBadS_sF22_3) noBadS_sF23_0) noBadS_sF24_0) (noBadS_escape _)) noBadS_sF24_1) noBadS_sF25_0) noBadS_sF26_0

theorem noBadS_sidebar_class (suite classname : String) (names : List String) :
    NoBadS (sidebar_class_html suite classname names) := by
  unfold sidebar_class_html
  refine noBadS_append (noBadS_append (noBadS_append (noBadS_append (noBadS_append (noBadS_append (noBadS_append (noBadS_append (noBadS_append (noBadS_append (noBadS_append (noBadS_append (noBadS_append (noBadS_append (noBadS_append (noBadS_append (noBadS_append (noBadS_append (noBadS_append noBadS_sF14_0 (noBadS_escape _)) noBadS_sF14_1) (noBadS_escape _)) noBadS_sF14_2) noBadS_sF15_0) (noBadS_escape _)) noBadS_sF15_1) (noBadS_escape _)) noBadS_sF15_2) noBadS_sF16_0) noBadS_sF17_0) noBadS_sF18_0) (noBadS_escape _)) noBadS_sF18_1) noBadS_sF19_0) noBadS_sF20_0) ?_) noBadS_sF27_0) noBadS_sF28_0
  refine noBadS_foldl noBadS_empty ?_
  intro s hs
  rcases List.mem_map.1 hs with ⟨nm, _, rfl⟩
  exact noBadS_sidebar_case _ _ _

theorem noBadS_sidebar_suite (suite : String) (scases : List CaseRow) :
    NoBadS (sidebar_suite_html suite scases) := by
  unfold sidebar_suite_html
  refine noBadS_append (noBadS_append (noBadS_append (noBadS_append (noBadS_append (noBadS_append (noBadS_append (noBadS_append (noBadS_append (noBadS_append (noBadS_append (noBadS_append (noBadS_append (noBadS_append (noBadS_append noBadS_sF7_0 (noBadS_escape _)) noBadS_sF7_1) noBadS_sF8_0) (noBadS_escape _)) noBadS_sF8_1) noBadS_sF9_0) noBadS_sF10_0) noBadS_sF11_0) (noBadS_escape _)) noBadS_sF11_1) noBadS_sF12_0) noBadS_sF13_0) ?_) noBadS_sF29_0) noBadS_sF30_0
  refine noBadS_foldl noBadS_empty ?_
  intro s hs
  rcases List.mem_map.1 hs with ⟨k, _, rfl⟩
  exact noBadS_sidebar_class _ _ _

theorem noBadS_build_sidebar (data : ParseData) (title : String) :
    NoBadS (_build_sidebar data title) := by
  unfold _build_sidebar
  refine noBadS_append (noBadS_append (noBadS_append (noBadS_append (noBadS_append (noBadS_append (noBadS_append (noBadS_append (noBadS_append (noBadS_append (noBadS_append noBadS_sF0_0 noBadS_sF1_0) noBadS_sF2_0) noBadS_sF3_0) noBadS_sF4_0) (noBadS_escape _)) noBadS_sF4_1) noBadS_sF5_0) noBadS_sF6_0) ?_) noBadS_sF31_0) noBadS_sF32_0
  refine noBadS_foldl noBadS_empty ?_
  intro s hs
  rcases List.mem_map.1 hs with ⟨k, _, rfl⟩
  exact noBadS_sidebar_suite _ _

theorem noBadS_render_str {data : ParseData} (h : WFStatuses data)
    (title now : String) : NoBadS (render_str data title now) := by
  unfold render_str
  exact noBadS_append (noBadS_append (noBadS_append (noBadS_append (noBadS_append (noBadS_append (noBadS_append (noBadS_append (noBadS_append (noBadS_append (noBadS_append (noBadS_append (noBadS_append (noBadS_append (noBadS_append (noBadS_append (noBadS_append (noBadS_append (noBadS_append (noBadS_append (noBadS_append (noBadS_append (noBadS_append (noBadS_append noBadS_hF0 (noBadS_escape _)) noBadS_hF1) (noBadS_build_sidebar _ _)) noBadS_hF2) (noBadS_escape _)) noBadS_hF3) (noBadS_escape _)) noBadS_hF4) (noBadS_natRepr _)) noBadS_hF5) (noBadS_intRepr _)) noBadS_hF6) (noBadS_intRepr _)) noBadS_hF7) (noBadS_intRepr _)) noBadS_hF8) (noBadS_intRepr _)) noBadS_hF9) (noBadS_intRepr _)) noBadS_hF10) (noBadS_seconds_fmt _)) noBadS_hF11) (noBadS_main_content_str h)) noBadS_hF12

theorem mapM_option_eq_some {α β} {f : α → Option β} {g : α → β} :
    ∀ {l : List α}, (∀ x ∈ l, f x = some (g x)) → l.mapM f = some (l.map g) := by
  intro l
  induction l with
  | nil => intro _; rfl
  | cons a l ih =>
    intro h
    rw [List.mapM_cons, h a (List.mem_cons_self _ _),
      ih fun x hx => h x (List.mem_cons_of_mem _ hx)]
    rfl

theorem row_some {c : CaseRow} (h : c.status ∈ statusKeys) :
    _build_row_html c = some (row_core c.status c) := by
  unfold _build_row_html
  rw [pill_class_map_eq h]
  rfl

set_option maxHeartbeats 2000000

theorem class_section_some (suite classname : String) {cc : List CaseRow}
    (h : ∀ c ∈ cc, c.status ∈ statusKeys) :
    class_section_html suite classname cc
      = some (class_section_str suite classname cc) := by
  unfold class_section_html class_section_str rows_html_str
  have hrw := mapM_option_eq_some
    (g := fun c => row_core c.status c)
    (l := sortCasesByName cc)
    (f := _build_row_html)
    fun x hx => row_some (h x (mem_sortCasesByName.1 hx))
  rw [hrw]
  rfl

theorem suite_section_some (suite : String) {scases : List CaseRow}
    (h : ∀ c ∈ scases, c.status ∈ statusKeys) :
    suite_section_html suite scases = some (suite_section_str suite scases) := by
  unfold suite_section_html suite_section_str
  have hrw := mapM_option_eq_some
    (g := fun k => class_section_str suite k (classCasesOf scases k))
    (l := sortStrings (classKeys scases))
    (f := fun k => class_section_html suite k (classCasesOf scases k))
    fun k _ => class_section_some suite k
      fun c hc => h c (List.mem_filter.1 hc).1
  rw [hrw]
  rfl

theorem main_content_some {data : ParseData} (h : WFStatuses data) :
    _build_main_content data = some (main_content_str data) := by
  unfold _build_main_content main_content_str
  have hrw := mapM_option_eq_some
    (g := fun s => suite_section_str s (suiteCasesOf data.cases s))
    (l := sortStrings (structureKeys data.cases))
    (f := fun s => suite_section_html s (suiteCasesOf data.cases s))
    fun s _ => suite_section_some s
      fun c hc => h c (List.mem_filter.1 hc).1
  rw [hrw]
  rfl

theorem render_some {data : ParseData} (h : WFStatuses data) (title now : String) :
    render_html data title now = some (render_str data title now) := by
  unfold render_html render_str
  rw [main_content_some h]
  rfl

theorem data_foldl_append (l : List String) :
    ∀ init : String, (l.foldl (· ++ ·) init).data
      = init.data ++ (l.map String.data).flatten := by
  induction l with
  | nil => intro init; simp
  | cons a l ih =>
    intro init
    rw [List.foldl_cons, ih, String.data_append]
    simp [List.append_assoc]

theorem mem_infix_foldl {s : String} {l : List String} (hs : s ∈ l)
    (init : String) : s.data <:+: (l.foldl (· ++ ·) init).data := by
  rw [data_foldl_append]
  rcases List.append_of_mem hs with ⟨u, v, rfl⟩
  refine ⟨init.data ++ (u.map String.data).flatten, (v.map String.data).flatten, ?_⟩
  simp [List.append_assoc]

theorem infixL {x : List Char} {s : String} (t : String) (h : x <:+: s.data) :
    x <:+: (s ++ t).data := by
  rw [String.data_append]
  rcases h with ⟨u, v, huv⟩
  exact ⟨u, v ++ t.data, by rw [← huv]; simp [List.append_assoc]⟩

theorem infixR {x : List Char} (s : String) {t : String} (h : x <:+: t.data) :
    x <:+: (s ++ t).data := by
  rw [String.data_append]
  rcases h with ⟨u, v, huv⟩
  exact ⟨s.data ++ u, v, by rw [← huv]; simp [List.append_assoc]⟩

theorem escape_name_infix_row (c : CaseRow) (pc : String) :
    (_escape_html c.name).data <:+: (row_core pc c).data := by
  unfold row_core
  iterate 21 apply infixL
  apply infixR
  exact List.infix_rfl

theorem rows_infix_class_section (suite classname : String) (cc : List CaseRow)
    {x : List Char} (h : x <:+: (rows_html_str cc).data) :
    x <:+: (class_section_str suite classname cc).data := by
  unfold class_section_str
  apply infixL
  exact infixR _ h

theorem fold_infix_suite_section (suite : String) (scases : List CaseRow)
    {x : List Char}
    (h : x <:+: (((sortStrings (classKeys scases)).map fun k =>
      class_section_str suite k (classCasesOf scases k)).foldl (· ++ ·) "").data) :
    x <:+: (suite_section_str suite scases).data := by
  unfold suite_section_str
  apply infixL
  exact infixR _ h

theorem main_infix_render (data : ParseData) (title now : String)
    {x : List Char} (h : x <:+: (main_content_str data).data) :
    x <:+: (render_str data title now).data := by
  unfold render_str
  apply infixL
  exact infixR _ h

theorem mem_suiteCasesOf {cases : List CaseRow} {c : CaseRow} (h : c ∈ cases) :
    c ∈ suiteCasesOf cases c.suite := by
  unfold suiteCasesOf
  rw [List.mem_filter]
  exact ⟨h, by simp⟩

theorem mem_classCasesOf {scases : List CaseRow} {c : CaseRow} (h : c ∈ scases) :
    c ∈ classCasesOf scases (effClass c) := by
  unfold classCasesOf
  rw [List.mem_filter]
  exact ⟨h, by simp⟩

theorem suite_mem_structureKeys {cases : List CaseRow} {c : CaseRow}
    (h : c ∈ cases) : c.suite ∈ structureKeys cases := by
  unfold structureKeys
  exact (mem_eraseDups _ _).2 (List.mem_map.2 ⟨c, h, rfl⟩)

theorem class_mem_classKeys {scases : List CaseRow} {c : CaseRow}
    (h : c ∈ scases) : effClass c ∈ classKeys scases := by
  unfold classKeys
  exact (mem_eraseDups _ _).2 (List.mem_map.2 ⟨c, h, rfl⟩)

theorem escape_name_infix_main {data : ParseData} {c : CaseRow}
    (hc : c ∈ data.cases) :
    (_escape_html c.name).data <:+: (main_content_str data).data := by
  have h1 : c ∈ suiteCasesOf data.cases c.suite := mem_suiteCasesOf hc
  have h2 : c ∈ classCasesOf (suiteCasesOf data.cases c.suite) (effClass c) :=
    mem_classCasesOf h1
  have h3 : row_core c.status c ∈
      ((sortCasesByName (classCasesOf (suiteCasesOf data.cases c.suite)
        (effClass c))).map fun x => row_core x.status x) :=
    List.mem_map.2 ⟨c, mem_sortCasesByName.2 h2, rfl⟩
  have h4 : (_escape_html c.name).data
      <:+: (rows_html_str (classCasesOf (suiteCasesOf data.cases c.suite)
        (effClass c))).data := by
    unfold rows_html_str
    exact (escape_name_infix_row c c.status).trans (mem_infix_foldl h3 "")
  have h5 := rows_infix_class_section c.suite (effClass c) _ h4
  have h6 : class_section_str c.suite (effClass c)
      (classCasesOf (suiteCasesOf data.cases c.suite) (effClass c)) ∈
      ((sortStrings (classKeys (suiteCasesOf data.cases c.suite))).map fun k =>
        class_section_str c.suite k
          (classCasesOf (suiteCasesOf data.cases c.suite) k)) :=
    List.mem_map.2 ⟨effClass c, mem_sortStrings.2 (class_mem_classKeys h1), rfl⟩
  have h7 := fold_infix_suite_section c.suite (suiteCasesOf data.cases c.suite)
    (h5.trans (mem_infix_foldl h6 ""))
  have h8 : suite_section_str c.suite (suiteCasesOf data.cases c.suite) ∈
      ((sortStrings (structureKeys data.cases)).map fun s =>
        suite_section_str s (suiteCasesOf data.cases s)) :=
    List.mem_map.2 ⟨c.suite, mem_sortStrings.2 (suite_mem_structureKeys hc), rfl⟩
  unfold main_content_str
  exact h7.trans (mem_infix_foldl h8 "")

theorem status_count_partition :
    ∀ {l : List CaseRow}, (∀ c ∈ l, c.status ∈ statusKeys) →
      l.length = (l.filter fun c => c.status = "ok").length
        + (l.filter fun c => c.status = "fail").length
        + (l.filter fun c => c.status = "err").length
        + (l.filter fun c => c.status = "skip").length := by
  intro l
  induction l with
  | nil => intro _; rfl
  | cons c l ih =>
    intro h
    have hc := h c (List.mem_cons_self _ _)
    have ht := ih fun x hx => h x (List.mem_cons_of_mem _ hx)
    simp only [statusKeys, List.mem_cons, List.mem_singleton,
      List.not_mem_nil, or_false] at hc
    rcases hc with h1 | h1 | h1 | h1 <;>
      · simp only [List.filter_cons, h1]
        simp only [List.length_cons, ht]
        simp
        omega

theorem flatMap_filter_perm {α β : Type} [DecidableEq β] (key : α → β) :
    ∀ (ks : List β) (l : List α), ks.Nodup → (∀ a ∈ l, key a ∈ ks) →
      (ks.flatMap fun k => l.filter fun a => key a = k).Perm l := by
  intro ks
  induction ks with
  | nil =>
    intro l _ hcov
    have hl : l = [] := by
      rw [List.eq_nil_iff_forall_not_mem]
      intro a ha
      exact absurd (hcov a ha) (List.not_mem_nil _)
    simp [hl]
  | cons k ks ih =>
    intro l hnd hcov
    rw [List.flatMap_cons]
    have hinner : ∀ k' ∈ ks,
        (l.filter fun a => key a = k')
          = ((l.filter fun a => !(decide (key a = k))).filter
              fun a => key a = k') := by
      intro k' hk'
      rw [List.filter_filter]
      apply List.filter_congr
      intro a _
      by_cases hak : key a = k'
      · have hkk : ¬ (k' = k) := by
          intro hh
          exact (List.nodup_cons.1 hnd).1 (hh ▸ hk')
        simp [hak, hkk]
      · simp [hak]
    have hmap : (ks.map fun k' => l.filter fun a => key a = k')
        = ks.map fun k' =>
            ((l.filter fun a => !(decide (key a = k))).filter
              fun a => key a = k') :=
      List.map_congr_left hinner
    rw [List.flatMap_def, hmap, ← List.flatMap_def]
    have hperm := ih (l.filter fun a => !(decide (key a = k)))
      (List.nodup_cons.1 hnd).2
      (by
        intro a ha
        rcases List.mem_filter.1 ha with ⟨hal, hne⟩
        have hmem := hcov a hal
        rcases List.mem_cons.1 hmem with hh | hh
        · exfalso
          simp [hh] at hne
        · exact hh)
    exact (hperm.append_left _).trans
      (List.filter_append_perm (fun a => decide (key a = k)) l)

theorem suite_cases_perm (scases : List CaseRow) :
    (suite_cases scases).Perm scases := by
  unfold suite_cases classKeys classCasesOf
  apply flatMap_filter_perm effClass
  · exact nodup_eraseDups _
  · intro a ha
    exact (mem_eraseDups _ _).2 (List.mem_map.2 ⟨a, ha, rfl⟩)

theorem suite_totals_suite_cases (scases : List CaseRow) :
    suite_totals (suite_cases scases) = suite_totals scases := by
  have hp := suite_cases_perm scases
  unfold suite_totals
  simp only [SubTotals.mk.injEq]
  refine ⟨hp.length_eq, ?_, ?_, ?_, ?_, ?_⟩
  · exact (hp.filter _).length_eq
  · exact (hp.filter _).length_eq
  · exact (hp.filter _).length_eq
  · exact (hp.filter _).length_eq
  · exact (hp.map (·.time)).sum_eq

theorem cases_eq_pairs (files : List (String × List RawSuite)) :
    (parse_files files).cases = (allSuitePairs files).flatMap casesOfPair := by
  unfold parse_files allSuitePairs casesOfPair
  simp only [List.flatMap_assoc, List.flatMap_map]

theorem suites_eq_pairs (files : List (String × List RawSuite)) :
    (parse_files files).suites
      = (allSuitePairs files).map fun pr => suiteRecord pr.1 pr.2 := by
  unfold parse_files allSuitePairs
  rw [List.map_flatMap]
  simp only [List.map_map]
  rfl

theorem casesOfPair_suite (pr : String × RawSuite) :
    ∀ r ∈ casesOfPair pr, r.suite = suiteName pr.1 pr.2 := by
  intro r hr
  rcases List.mem_map.1 hr with ⟨rc, _, rfl⟩
  rfl

theorem flatMap_filter_unique {α β γ : Type} [DecidableEq β] :
    ∀ (L : List γ) (key : γ → β) (g : γ → List α) (val : α → β),
      (∀ x ∈ L, ∀ a ∈ g x, val a = key x) → (L.map key).Nodup →
      ∀ x ∈ L, (L.flatMap g).filter (fun a => val a = key x) = g x := by
  intro L
  induction L with
  | nil => intro key g val _ _ x hx; cases hx
  | cons y L ih =>
    intro key g val hval hnd x hx
    rw [List.flatMap_cons, List.filter_append]
    rcases List.mem_cons.1 hx with rfl | hx
    · have h1 : (g x).filter (fun a => val a = key x) = g x := by
        rw [List.filter_eq_self]
        intro a ha
        simp [hval x (List.mem_cons_self _ _) a ha]
      have h2 : (L.flatMap g).filter (fun a => val a = key x) = [] := by
        rw [List.filter_eq_nil_iff]
        intro a ha
        rcases List.mem_flatMap.1 ha with ⟨z, hz, haz⟩
        have hvz := hval z (List.mem_cons_of_mem _ hz) a haz
        have hne : key z ≠ key x := by
          intro hh
          rw [List.map_cons, List.nodup_cons] at hnd
          exact hnd.1 (hh ▸ List.mem_map.2 ⟨z, hz, rfl⟩)
        simp [hvz, hne]
      rw [h1, h2, List.append_nil]
    · have h1 : (g y).filter (fun a => val a = key x) = [] := by
        rw [List.filter_eq_nil_iff]
        intro a ha
        have hvy := hval y (List.mem_cons_self _ _) a ha
        have hne : key y ≠ key x := by
          intro hh
          rw [List.map_cons, List.nodup_cons] at hnd
          exact hnd.1 (hh ▸ List.mem_map.2 ⟨x, hx, rfl⟩)
        simp [hvy, hne]
      rw [h1, List.nil_append]
      exact ih key g val (fun z hz => hval z (List.mem_cons_of_mem _ hz))
        (by rw [List.map_cons, List.nodup_cons] at hnd; exact hnd.2) x hx

theorem mapME_error (fs : String → Except ParseErr (List RawSuite)) :
    ∀ (paths : List String), (∃ p ∈ paths, ∃ e, fs p = .error e) →
      ∃ e, (paths.mapM fun p => (fs p).map fun xs => (p, xs))
        = (.error e : Except ParseErr (List (String × List RawSuite))) := by
  intro paths
  induction paths with
  | nil => rintro ⟨p, hp, _⟩; cases hp
  | cons q paths ih =>
    rintro ⟨p, hp, e, he⟩
    cases hq : fs q with
    | error e' =>
      refine ⟨e', ?_⟩
      rw [List.mapM_cons, hq]
      rfl
    | ok xs =>
      rcases List.mem_cons.1 hp with rfl | hp
      · rw [hq] at he
        cases he
      · rcases ih ⟨p, hp, e, he⟩ with ⟨e', he'⟩
        refine ⟨e', ?_⟩
        rw [List.mapM_cons, hq, he']
        rfl

theorem ratFloor_eq_floor (q : ℚ) : ratFloor q = ⌊q⌋ :=
  (Rat.floor_def).symm

theorem ratFloor_natCast (n : ℕ) : ratFloor (n : ℚ) = n := by
  unfold ratFloor
  rw [Rat.num_natCast, Rat.den_natCast]
  simp

theorem roundHalfEven_natCast (n : ℕ) : roundHalfEven (n : ℚ) = n := by
  have hr : (n : ℚ) - ((n : ℤ) : ℚ) = 0 := by push_cast; ring
  simp only [roundHalfEven, ratFloor_natCast, hr]
  norm_num

theorem fmt2_eq_of (x : ℚ) (n : ℕ) (h1 : 0 ≤ x) (h2 : x * 100 = (n : ℚ)) :
    fmt2 x = natRepr (n / 100) ++ "." ++ pad2 (n % 100) := by
  unfold fmt2
  rw [abs_of_nonneg h1, h2, roundHalfEven_natCast, Int.toNat_natCast,
    if_neg (not_lt.2 h1)]
  rfl

theorem seconds_fmt_zero : seconds_fmt 0 = "0.00s" := by
  unfold seconds_fmt
  rw [if_neg (by norm_num)]
  rw [fmt2_eq_of 0 0 le_rfl (by norm_num)]
  decide

theorem subtotal_equation {l : List CaseRow} (h : ∀ c ∈ l, c.status ∈ statusKeys) :
    ((suite_totals l).passed : ℤ) = ((suite_totals l).tests : ℤ)
      - (suite_totals l).failures - (suite_totals l).errors
      - (suite_totals l).skipped := by
  have hp := status_count_partition h
  unfold suite_totals
  simp only []
  omega

theorem subtotal_equation_class {l : List CaseRow}
    (h : ∀ c ∈ l, c.status ∈ statusKeys) :
    ((class_totals l).passed : ℤ) = ((class_totals l).tests : ℤ)
      - (class_totals l).failures - (class_totals l).errors
      - (class_totals l).skipped := by
  have hp := status_count_partition h
  unfold class_totals
  simp only []
  omega

/-! ### Claim theorems -/

/-- C1: for every input, `passed = tests - failures - errors - skipped` holds in
the ReportTotals produced by `parse_files` (where `passed` is computed exactly
that way from the attribute-derived totals), and in every per-suite and
per-class subtotal rendered by `_build_main_content` (the `suite_totals` and
`class_totals` records whose fields are the counts shown in the summary pills
of each rendered section), because the four case statuses partition each
section's case list. -/
theorem C1_passed_equation (files : List (String × List RawSuite)) :
    ((parse_files files).totals.passed
        = (parse_files files).totals.tests - (parse_files files).totals.failures
          - (parse_files files).totals.errors - (parse_files files).totals.skipped)
    ∧ (∀ s ∈ sortStrings (structureKeys (parse_files files).cases),
        ((suite_totals (suite_cases
            (suiteCasesOf (parse_files files).cases s))).passed : ℤ)
          = ((suite_totals (suite_cases
              (suiteCasesOf (parse_files files).cases s))).tests : ℤ)
            - (suite_totals (suite_cases
                (suiteCasesOf (parse_files files).cases s))).failures
            - (suite_totals (suite_cases
                (suiteCasesOf (parse_files files).cases s))).errors
            - (suite_totals (suite_cases
                (suiteCasesOf (parse_files files).cases s))).skipped)
    ∧ (∀ s ∈ sortStrings (structureKeys (parse_files files).cases),
        ∀ k ∈ sortStrings (classKeys (suiteCasesOf (parse_files files).cases s)),
        ((class_totals (classCasesOf
            (suiteCasesOf (parse_files files).cases s) k)).passed : ℤ)
          = ((class_totals (classCasesOf
              (suiteCasesOf (parse_files files).cases s) k)).tests : ℤ)
            - (class_totals (classCasesOf
                (suiteCasesOf (parse_files files).cases s) k)).failures
            - (class_totals (classCasesOf
                (suiteCasesOf (parse_files files).cases s) k)).errors
            - (class_totals (classCasesOf
                (suiteCasesOf (parse_files files).cases s) k)).skipped) := by
  have hwf := parse_wf files
  refine ⟨?_, ?_, ?_⟩
  · unfold parse_files
    ring
  · intro s _
    apply subtotal_equation
    intro c hc
    have h1 : c ∈ suiteCasesOf (parse_files files).cases s :=
      (suite_cases_perm _).mem_iff.1 hc
    exact hwf c (List.mem_filter.1 h1).1
  · intro s _ k _
    apply subtotal_equation_class
    intro c hc
    exact hwf c (List.mem_filter.1 (List.mem_filter.1 hc).1).1

/-- C1 witness: the per-suite equation at the concrete input `exFiles1`. -/
theorem C1_witness :
    ("S" ∈ sortStrings (structureKeys (parse_files exFiles1).cases))
    ∧ (((suite_totals (suite_cases
          (suiteCasesOf (parse_files exFiles1).cases "S"))).passed : ℤ)
        = ((suite_totals (suite_cases
            (suiteCasesOf (parse_files exFiles1).cases "S"))).tests : ℤ)
          - (suite_totals (suite_cases
              (suiteCasesOf (parse_files exFiles1).cases "S"))).failures
          - (suite_totals (suite_cases
              (suiteCasesOf (parse_files exFiles1).cases "S"))).errors
          - (suite_totals (suite_cases
              (suiteCasesOf (parse_files exFiles1).cases "S"))).skipped) :=
  ⟨by decide, (C1_passed_equation exFiles1).2.1 "S" (by decide)⟩

/-- C2 counterexample: a case whose result list is `[Error, Failure]` contains a
`Failure`, yet `_get_test_status` returns `"err"`, not `"fail"` — the claimed
any-failure-wins precedence is false; the loop returns on the first result. -/
theorem C2_counterexample :
    ((⟨.failure, none, none⟩ : RawResult) ∈ exCaseEF.result
        ∧ (⟨.error, none, none⟩ : RawResult) ∈ exCaseEF.result)
    ∧ _get_test_status exCaseEF = "err"
    ∧ "err" ≠ "fail" :=
  ⟨⟨by decide, by decide⟩, rfl, by decide⟩

/-- C2 amended: the status of a case is decided by its first result entry
alone (`fail` for `Failure`, `err` for `Error`, `skip` for `Skipped`), and a
case with no result entries is `"ok"`; in particular a result list holding an
`Error` before a `Failure` is classified `"err"`. -/
theorem C2_first_result_wins :
    (∀ c : RawCase, c.result = [] → _get_test_status c = "ok")
    ∧ (∀ (c : RawCase) (r : RawResult) (rs : List RawResult),
        c.result = r :: rs →
          _get_test_status c
            = (match r.kind with
               | .failure => "fail"
               | .error => "err"
               | .skipped => "skip")) := by
  constructor
  · intro c hc
    unfold _get_test_status
    rw [hc]
  · intro c r rs hc
    unfold _get_test_status
    rw [hc]

/-- C2 witness: the amended classification at the concrete `[Error, Failure]`
case. -/
theorem C2_witness :
    exCaseEF.result = ⟨.error, none, none⟩ :: [⟨.failure, none, none⟩]
    ∧ _get_test_status exCaseEF
      = (match (⟨.error, none, none⟩ : RawResult).kind with
         | .failure => "fail"
         | .error => "err"
         | .skipped => "skip") :=
  ⟨rfl, C2_first_result_wins.2 exCaseEF ⟨.error, none, none⟩
    [⟨.failure, none, none⟩] rfl⟩

/-- C6: a suite element with every optional numeric attribute absent parses
without failure: `failures`, `errors`, `skipped` and `time` default to `0`,
the `tests` count is derived from the actual case list, the elapsed time
formats as `0.00s`, and `parse_files` produces its SuiteSummary normally. -/
theorem C6_missing_attrs (p : String) (s : RawSuite)
    (h1 : s.tests = none) (h2 : s.failures = none) (h3 : s.errors = none)
    (h4 : s.skipped = none) (h5 : s.disabled = none) (h6 : s.time = none) :
    (suiteRecord p s).tests = (s.cases.length : ℤ)
    ∧ (suiteRecord p s).failures = 0
    ∧ (suiteRecord p s).errors = 0
    ∧ (suiteRecord p s).skipped = 0
    ∧ (suiteRecord p s).time = 0
    ∧ seconds_fmt (suiteRecord p s).time = "0.00s"
    ∧ (parse_files [(p, [s])]).suites = [suiteRecord p s] := by
  have ht : (suiteRecord p s).time = 0 := by
    unfold suiteRecord
    rw [h6]
    rfl
  refine ⟨?_, ?_, ?_, ?_, ht, ?_, ?_⟩
  · unfold suiteRecord suiteTests
    rw [h1]
  · unfold suiteRecord orZero
    rw [h2]
    rfl
  · unfold suiteRecord orZero
    rw [h3]
    rfl
  · unfold suiteRecord suiteSkipped orZero
    rw [h4, h5]
    rfl
  · rw [ht]
    exact seconds_fmt_zero
  · unfold parse_files
    simp

/-- C6 witness: the defaults at the concrete attribute-free suite. -/
theorem C6_witness :
    exSuiteC6.tests = none
    ∧ (suiteRecord "f.xml" exSuiteC6).tests = (exSuiteC6.cases.length : ℤ)
    ∧ seconds_fmt (suiteRecord "f.xml" exSuiteC6).time = "0.00s" := by
  refine ⟨rfl, ?_, ?_⟩
  · exact (C6_missing_attrs "f.xml" exSuiteC6 rfl rfl rfl rfl rfl rfl).1
  · exact (C6_missing_attrs "f.xml" exSuiteC6 rfl rfl rfl rfl rfl rfl).2.2.2.2.2.1

/-- C9: on any parse failure the run is atomic: if any input path fails to
parse, `parse_files` (the loop with the `fromfile` oracle) aborts with the
error, and the driver `mainE` returns that error without ever producing its
`WriteEvent` — the output file is opened only in the success branch, so no
partial report is emitted. -/
theorem C9_abort_on_parse_failure (fs : String → Except ParseErr (List RawSuite))
    (paths : List String) (output title now : String) (p : String)
    (hp : p ∈ paths) (e : ParseErr) (he : fs p = .error e) :
    (∃ e', parse_filesE fs paths = .error e')
    ∧ ∃ e', mainE fs paths output title now = .error (.parse e') := by
  rcases mapME_error fs paths ⟨p, hp, e, he⟩ with ⟨e', he'⟩
  refine ⟨⟨e', ?_⟩, ⟨e', ?_⟩⟩
  · unfold parse_filesE
    rw [he']
    rfl
  · unfold mainE parse_filesE
    rw [he']
    rfl

/-- C9 witness: the abort at a concrete failing oracle and path list. -/
theorem C9_witness :
    ("a.xml" ∈ ["a.xml"] ∧ exFsFail "a.xml" = .error (.fromfileFailed "a.xml"))
    ∧ ((∃ e', parse_filesE exFsFail ["a.xml"] = .error e')
      ∧ ∃ e', mainE exFsFail ["a.xml"] "out.html" "T" "now"
          = .error (.parse e')) :=
  ⟨⟨by decide, rfl⟩, C9_abort_on_parse_failure exFsFail ["a.xml"] "out.html"
    "T" "now" "a.xml" (by decide) (.fromfileFailed "a.xml") rfl⟩

/-- C7: `seconds_fmt` renders `sec < 60` as `"{sec:.2f}s"` (the two-decimal
formatting modelled by `fmt2`) and `sec ≥ 60` as `"{m}m{s:.2f}s"` with
`m = ⌊sec / 60⌋` and `s = sec - 60 * m`; in particular
`seconds_fmt 45.2 = "45.20s"`, `seconds_fmt 125.5 = "2m5.50s"` and
`seconds_fmt 0 = "0.00s"`. -/
theorem C7_seconds_fmt :
    (∀ sec : ℚ, sec < 60 → seconds_fmt sec = fmt2 sec ++ "s")
    ∧ (∀ sec : ℚ, 60 ≤ sec →
        seconds_fmt sec = intRepr ⌊sec / 60⌋ ++ "m"
          ++ fmt2 (sec - 60 * (⌊sec / 60⌋ : ℚ)) ++ "s")
    ∧ seconds_fmt 45.2 = "45.20s"
    ∧ seconds_fmt 125.5 = "2m5.50s"
    ∧ seconds_fmt 0 = "0.00s" := by
  have hbr1 : ∀ sec : ℚ, sec < 60 → seconds_fmt sec = fmt2 sec ++ "s" := by
    intro sec h
    unfold seconds_fmt
    rw [if_neg (not_le.2 h)]
  have hbr2 : ∀ sec : ℚ, 60 ≤ sec →
      seconds_fmt sec = intRepr ⌊sec / 60⌋ ++ "m"
        ++ fmt2 (sec - 60 * (⌊sec / 60⌋ : ℚ)) ++ "s" := by
    intro sec h
    unfold seconds_fmt
    rw [if_pos h, ratFloor_eq_floor, mul_comm]
  refine ⟨hbr1, hbr2, ?_, ?_, ?_⟩
  · rw [hbr1 45.2 (by norm_num), fmt2_eq_of 45.2 4520 (by norm_num) (by norm_num)]
    decide
  · rw [hbr2 125.5 (by norm_num)]
    have hfl : ⌊(125.5 : ℚ) / 60⌋ = 2 := by norm_num [Int.floor_eq_iff]
    rw [hfl]
    have harg : (125.5 : ℚ) - 60 * ((2 : ℤ) : ℚ) = 5.5 := by
      push_cast
      norm_num
    rw [harg, fmt2_eq_of 5.5 550 (by norm_num) (by norm_num)]
    decide
  · rw [hbr1 0 (by norm_num)]
    have h0 := seconds_fmt_zero
    unfold seconds_fmt at h0
    rw [if_neg (by norm_num)] at h0
    exact h0

/-- C7 witness: both branches applied at concrete inputs whose hypotheses are
decidable (`45 < 60` and `60 ≤ 60`). -/
theorem C7_witness :
    ((45 : ℚ) < 60 ∧ seconds_fmt 45 = fmt2 45 ++ "s")
    ∧ ((60 : ℚ) ≤ 60
      ∧ seconds_fmt 60 = intRepr ⌊(60 : ℚ) / 60⌋ ++ "m"
          ++ fmt2 (60 - 60 * (⌊(60 : ℚ) / 60⌋ : ℚ)) ++ "s") :=
  ⟨⟨by decide, C7_seconds_fmt.1 45 (by decide)⟩,
   ⟨by decide, C7_seconds_fmt.2.1 60 (by decide)⟩⟩

theorem infix_in_segment {x whole pre mid post : List Char}
    (heq : whole = pre ++ mid ++ post) (hx : x <:+: mid) : x <:+: whole := by
  subst heq
  exact hx.trans (List.infix_append _ _ _)

/-- C10: for a case whose XML omits the classname, the stored record's
classname is the empty string; the grouping key used for the main-content
heading and the sidebar (`effClass`, i.e. `classname or "Default"`) is the
placeholder `"Default"`; but the row markup built by `_build_row_html` keeps
the empty string: its `data-classname` attribute is empty and its classname
cell is an empty `nowrap` div — so the row's recorded classname differs from
the heading it is grouped under. -/
theorem C10_default_classname (sname : String) (rc : RawCase)
    (h : rc.classname = none) :
    (caseRecord sname rc).classname = ""
    ∧ effClass (caseRecord sname rc) = "Default"
    ∧ effClass (caseRecord sname rc) ≠ (caseRecord sname rc).classname
    ∧ _escape_html (caseRecord sname rc).classname = ""
    ∧ ∀ out, _build_row_html (caseRecord sname rc) = some out →
        (" data-classname=\"\" ".data <:+: out.data)
        ∧ ("<div class=\"nowrap\" title=\"\"></div>".data <:+: out.data) := by
  have hcl : (caseRecord sname rc).classname = "" := by
    unfold caseRecord
    rw [h]
    rfl
  have heff : effClass (caseRecord sname rc) = "Default" := by
    unfold effClass
    rw [hcl]
    decide
  refine ⟨hcl, heff, ?_, ?_, ?_⟩
  · rw [heff, hcl]
    decide
  · rw [hcl]
    rfl
  · intro out hout
    have hsome := row_some (status_of_caseRecord sname rc)
    rw [hout] at hsome
    have hrow := Option.some.inj hsome.symm
    subst hrow
    constructor
    · have heq :
          (row_core (caseRecord sname rc).status (caseRecord sname rc)).data
          = (rF0
            ++ (if need_details (caseRecord sname rc) then " has-details"
               else "")
            ++ rF1 ++ _escape_html (caseRecord sname rc).suite).data
          ++ (rF2 ++ rF3).data
          ++ (_escape_html (caseRecord sname rc).name ++ rF4
            ++ (caseRecord sname rc).status ++ rF5
            ++ label_of (caseRecord sname rc).status ++ rF6
            ++ _escape_html (caseRecord sname rc).name ++ rF7
            ++ _escape_html (caseRecord sname rc).name ++ rF8 ++ rF9 ++ rF10
            ++ _escape_html (caseRecord sname rc).suite ++ rF11
            ++ _escape_html (caseRecord sname rc).suite ++ rF12
            ++ seconds_fmt (caseRecord sname rc).time ++ rF13
            ++ (if need_details (caseRecord sname rc) then
                details_core (caseRecord sname rc).status (caseRecord sname rc)
               else "") ++ rF14).data := by
        unfold row_core
        rw [hcl]
        simp [String.data_append, List.append_assoc,
          show (_escape_html "").data = ([] : List Char) from rfl]
      exact infix_in_segment heq (by decide)
    · have heq :
          (row_core (caseRecord sname rc).status (caseRecord sname rc)).data
          = (rF0
            ++ (if need_details (caseRecord sname rc) then " has-details"
               else "")
            ++ rF1 ++ _escape_html (caseRecord sname rc).suite ++ rF2 ++ rF3
            ++ _escape_html (caseRecord sname rc).name ++ rF4
            ++ (caseRecord sname rc).status ++ rF5
            ++ label_of (caseRecord sname rc).status ++ rF6
            ++ _escape_html (caseRecord sname rc).name ++ rF7
            ++ _escape_html (caseRecord sname rc).name).data
          ++ (rF8 ++ rF9 ++ rF10).data
          ++ (_escape_html (caseRecord sname rc).suite ++ rF11
            ++ _escape_html (caseRecord sname rc).suite ++ rF12
            ++ seconds_fmt (caseRecord sname rc).time ++ rF13
            ++ (if need_details (caseRecord sname rc) then
                details_core (caseRecord sname rc).status (caseRecord sname rc)
               else "") ++ rF14).data := by
        unfold row_core
        rw [hcl]
        simp [String.data_append, List.append_assoc,
          show (_escape_html "").data = ([] : List Char) from rfl]
      exact infix_in_segment heq (by decide)

/-- C10 witness: the classname defaults at the concrete classname-free case. -/
theorem C10_witness :
    exCaseNoCls.classname = none
    ∧ (caseRecord "S" exCaseNoCls).classname = ""
    ∧ effClass (caseRecord "S" exCaseNoCls) = "Default" :=
  ⟨rfl, (C10_default_classname "S" exCaseNoCls rfl).1,
    (C10_default_classname "S" exCaseNoCls rfl).2.1⟩

/-- C5: every user-supplied string interpolated into the report is passed
through `_escape_html` first, so for any parsed input whose case name
contains `<script>alert(1)</script>`, `render_html` succeeds and its output
contains that name in entity-escaped form, while the raw markup substring
`<script>alert(1)</script>` never occurs anywhere in the output (the output
decomposes into chunks that are either escaped/numeric text without `<`/`>`
or fixed template fragments in which no payload occurrence can end). -/
theorem C5_escaping (files : List (String × List RawSuite))
    (title now : String) (c : CaseRow)
    (hc : c ∈ (parse_files files).cases)
    (hname : payload <:+: c.name.data) :
    ∃ out, render_html (parse_files files) title now = some out
      ∧ ((_escape_html c.name).data <:+: out.data)
      ∧ ¬ (payload <:+: out.data) := by
  have hwf := parse_wf files
  refine ⟨render_str (parse_files files) title now, render_some hwf title now,
    ?_, ?_⟩
  · exact main_infix_render _ title now (escape_name_infix_main hc)
  · exact noBadS_not_payload (noBadS_render_str hwf title now)

/-- C5 witness: the escaping guarantee at a concrete input whose single case
is named `<script>alert(1)</script>`. -/
theorem C5_witness :
    (caseRecord "S" { name := some "<script>alert(1)</script>" }
        ∈ (parse_files exFilesC5).cases)
    ∧ (payload <:+:
        (caseRecord "S" { name := some "<script>alert(1)</script>" }).name.data)
    ∧ ∃ out, render_html (parse_files exFilesC5) "Report" "2026-10-12" = some out
        ∧ ((_escape_html (caseRecord "S"
            { name := some "<script>alert(1)</script>" }).name).data <:+: out.data)
        ∧ ¬ (payload <:+: out.data) :=
  ⟨by decide, by decide,
    C5_escaping exFilesC5 "Report" "2026-10-12"
      (caseRecord "S" { name := some "<script>alert(1)</script>" })
      (by decide) (by decide)⟩

/-- C4: two input files declaring the same (nonempty) suite name produce two
separate SuiteSummary entries — both appear in the suites list in order,
neither overwrites the other, and the totals suite count counts both — while
the grouping used by `_build_main_content` puts the case rows of both files
under the single suite key for that name (one heading), with the rows of the
first file followed by the rows of the second.  Disjointness of the two case
lists is not needed: the code never merges or deduplicates. -/
theorem C4_same_suite_name (p1 p2 n : String) (s1 s2 : RawSuite)
    (hn1 : s1.name = some n) (hn2 : s2.name = some n) (hne : n ≠ "")
    (hcases : s1.cases ≠ []) :
    (parse_files [(p1, [s1]), (p2, [s2])]).suites
        = [suiteRecord p1 s1, suiteRecord p2 s2]
    ∧ (suiteRecord p1 s1).name = n
    ∧ (suiteRecord p2 s2).name = n
    ∧ (parse_files [(p1, [s1]), (p2, [s2])]).totals.suites = 2
    ∧ structureKeys (parse_files [(p1, [s1]), (p2, [s2])]).cases = [n]
    ∧ sortStrings (structureKeys (parse_files [(p1, [s1]), (p2, [s2])]).cases)
        = [n]
    ∧ suiteCasesOf (parse_files [(p1, [s1]), (p2, [s2])]).cases n
        = s1.cases.map (caseRecord n) ++ s2.cases.map (caseRecord n) := by
  have hsn1 : suiteName p1 s1 = n := by
    unfold suiteName
    rw [hn1]
    simp [hne]
  have hsn2 : suiteName p2 s2 = n := by
    unfold suiteName
    rw [hn2]
    simp [hne]
  have hcase : (parse_files [(p1, [s1]), (p2, [s2])]).cases
      = s1.cases.map (caseRecord n) ++ s2.cases.map (caseRecord n) := by
    show (([(p1, [s1]), (p2, [s2])].flatMap fun pf =>
      pf.2.flatMap fun s => s.cases.map (caseRecord (suiteName pf.1 s)))) = _
    simp [hsn1, hsn2]
  have halln : ∀ c ∈ (parse_files [(p1, [s1]), (p2, [s2])]).cases,
      c.suite = n := by
    intro c hc
    rw [hcase] at hc
    rcases List.mem_append.1 hc with hc | hc <;>
      · rcases List.mem_map.1 hc with ⟨rc, _, rfl⟩
        rfl
  have hnonempty : (parse_files [(p1, [s1]), (p2, [s2])]).cases ≠ [] := by
    rw [hcase]
    intro hcontra
    rcases List.append_eq_nil.1 hcontra with ⟨hx, _⟩
    exact hcases (List.map_eq_nil_iff.1 hx)
  have hkeys : structureKeys (parse_files [(p1, [s1]), (p2, [s2])]).cases = [n] := by
    unfold structureKeys
    apply eraseDups_const
    · intro x hx
      rcases List.mem_map.1 hx with ⟨c, hc, rfl⟩
      exact halln c hc
    · intro hcontra
      apply hnonempty
      exact List.map_eq_nil_iff.1 hcontra
  refine ⟨?_, ?_, ?_, ?_, hkeys, ?_, ?_⟩
  · show ([(p1, [s1]), (p2, [s2])].flatMap fun pf =>
      pf.2.map (suiteRecord pf.1)) = _
    simp
  · show suiteName p1 s1 = n
    exact hsn1
  · show suiteName p2 s2 = n
    exact hsn2
  · rfl
  · rw [hkeys]
    rfl
  · rw [hcase]
    unfold suiteCasesOf
    rw [List.filter_eq_self]
    intro c hc
    simp only [decide_eq_true_eq]
    apply halln
    rw [hcase]
    exact hc

/-- C4 witness: the two-summary / one-heading behaviour at two concrete files
both declaring suite `"Suite1"` with disjoint cases `a` and `b`. -/
theorem C4_witness :
    (exS1.name = some "Suite1" ∧ exS2.name = some "Suite1"
      ∧ "Suite1" ≠ "" ∧ exS1.cases ≠ [])
    ∧ (parse_files [("x.xml", [exS1]), ("y.xml", [exS2])]).suites
        = [suiteRecord "x.xml" exS1, suiteRecord "y.xml" exS2]
    ∧ structureKeys
        (parse_files [("x.xml", [exS1]), ("y.xml", [exS2])]).cases = ["Suite1"] :=
  ⟨⟨rfl, rfl, by decide, by decide⟩,
    (C4_same_suite_name "x.xml" "y.xml" "Suite1" exS1 exS2 rfl rfl
      (by decide) (by decide)).1,
    (C4_same_suite_name "x.xml" "y.xml" "Suite1" exS1 exS2 rfl rfl
      (by decide) (by decide)).2.2.2.2.1⟩

/-- C8 counterexample: two parseable files with distinct suite names, swapped.
The swapped list is a permutation of the original with pairwise-distinct
suite names, yet `parse_files` returns a different result (the suites list
keeps input order), so the claimed equality of results fails. -/
theorem C8_counterexample :
    exFilesAB.Perm exFilesBA
    ∧ ((allSuitePairs exFilesAB).map fun pr => suiteName pr.1 pr.2).Nodup
    ∧ parse_files exFilesAB ≠ parse_files exFilesBA := by
  refine ⟨by decide, by decide, fun hcontra => ?_⟩
  have hnames := congrArg (fun d => d.suites.map SuiteSummary.name) hcontra
  exact absurd hnames (by decide)

/-- C8 amended: `parse_files` is permutation-invariant only up to order: for
any permutation of the input files (the distinct-suite-name hypothesis of the
claim is kept), the totals dictionary is identical, and the suites and cases
lists of the permuted run are permutations of the originals — but not equal
lists, since both preserve input order. -/
theorem C8_perm_invariance (files files' : List (String × List RawSuite))
    (hperm : files.Perm files')
    (hnd : ((allSuitePairs files).map fun pr => suiteName pr.1 pr.2).Nodup) :
    (parse_files files).totals = (parse_files files').totals
    ∧ (parse_files files).suites.Perm (parse_files files').suites
    ∧ (parse_files files).cases.Perm (parse_files files').cases := by
  have hsuites : (parse_files files).suites.Perm (parse_files files').suites := by
    show (files.flatMap fun pf => pf.2.map (suiteRecord pf.1)).Perm
      (files'.flatMap fun pf => pf.2.map (suiteRecord pf.1))
    exact hperm.flatMap_right _
  have hcases : (parse_files files).cases.Perm (parse_files files').cases := by
    show (files.flatMap fun pf =>
        pf.2.flatMap fun s => s.cases.map (caseRecord (suiteName pf.1 s))).Perm
      (files'.flatMap fun pf =>
        pf.2.flatMap fun s => s.cases.map (caseRecord (suiteName pf.1 s)))
    exact hperm.flatMap_right _
  refine ⟨?_, hsuites, hcases⟩
  have hfm := hperm.flatMap_right fun pf => pf.2.map (suiteRecord pf.1)
  unfold parse_files
  simp only [ReportTotals.mk.injEq]
  refine ⟨hfm.length_eq, ?_, ?_, ?_, ?_, ?_, ?_⟩ <;>
    first
    | exact (hfm.map _).sum_eq
    | rw [(hfm.map (fun x => x.tests)).sum_eq,
        (hfm.map (fun x => x.failures)).sum_eq,
        (hfm.map (fun x => x.errors)).sum_eq,
        (hfm.map (fun x => x.skipped)).sum_eq]

/-- C8 witness: the amended invariance at the concrete two-file swap. -/
theorem C8_witness :
    (exFilesAB.Perm exFilesBA
      ∧ ((allSuitePairs exFilesAB).map fun pr => suiteName pr.1 pr.2).Nodup)
    ∧ (parse_files exFilesAB).totals = (parse_files exFilesBA).totals
    ∧ (parse_files exFilesAB).suites.Perm (parse_files exFilesBA).suites :=
  ⟨⟨by decide, by decide⟩,
    (C8_perm_invariance exFilesAB exFilesBA (by decide) (by decide)).1,
    (C8_perm_invariance exFilesAB exFilesBA (by decide) (by decide)).2.1⟩

/-- C3 counterexample: a suite element whose `failures="1"` attribute
disagrees with its single passing case.  The SuiteSummary (and the top-level
totals) report 1 failure, while the subtotal `_build_main_content` recomputes
from the parsed case records counts 0 failing rows, so the claimed agreement
fails. -/
theorem C3_counterexample :
    ((parse_files exFilesC3).suites.map (·.failures)) = [1]
    ∧ (parse_files exFilesC3).totals.failures = 1
    ∧ (suite_totals (suite_cases
        (suiteCasesOf (parse_files exFilesC3).cases "S"))).failures = 0
    ∧ (1 : ℤ) ≠ ((0 : ℕ) : ℤ) :=
  ⟨by decide, by decide, by decide, by decide⟩

theorem totals_sum_eq (files : List (String × List RawSuite))
    (f : SuiteSummary → ℤ) (g : String × RawSuite → ℕ)
    (hfg : ∀ pr ∈ allSuitePairs files, f (suiteRecord pr.1 pr.2) = (g pr : ℤ)) :
    ((parse_files files).suites.map f).sum
      = ((((allSuitePairs files).map g).sum : ℕ) : ℤ) := by
  rw [suites_eq_pairs, List.map_map]
  have h1 : ((allSuitePairs files).map (f ∘ fun pr => suiteRecord pr.1 pr.2))
      = (allSuitePairs files).map fun pr => ((g pr : ℕ) : ℤ) :=
    List.map_congr_left fun pr hpr => hfg pr hpr
  rw [h1]
  have h2 : ((allSuitePairs files).map fun pr => ((g pr : ℕ) : ℤ))
      = ((allSuitePairs files).map g).map Nat.cast := by
    rw [List.map_map]
    rfl
  rw [h2]
  exact (Nat.cast_list_sum _).symm

theorem cases_filter_length (files : List (String × List RawSuite))
    (p : CaseRow → Bool) :
    ((parse_files files).cases.filter p).length
      = ((allSuitePairs files).map fun pr =>
          ((casesOfPair pr).filter p).length).sum := by
  rw [cases_eq_pairs, List.filter_flatMap, List.length_flatMap]
  rfl

/-- C3 amended: the top-level totals and the SuiteSummary counts come from
the suite-level XML attributes, while the per-suite subtotals rendered by
`_build_main_content` are recomputed by counting parsed case records; the
code never reconciles the two.  They agree exactly when the attributes are
consistent with the case lists (`AttrsConsistent`) — then, with the claim's
distinct-suite-name hypothesis, every SuiteSummary count equals the rendered
per-suite subtotal for its suite name, and the top-level totals equal the
whole-run case counts. -/
theorem C3_attr_agreement (files : List (String × List RawSuite))
    (hnd : ((allSuitePairs files).map fun pr => suiteName pr.1 pr.2).Nodup)
    (hcons : ∀ pr ∈ allSuitePairs files, AttrsConsistent pr) :
    (∀ pr ∈ allSuitePairs files,
      ((suiteRecord pr.1 pr.2).tests
          = ((suite_totals (suite_cases (suiteCasesOf (parse_files files).cases
              (suiteName pr.1 pr.2)))).tests : ℤ))
      ∧ ((suiteRecord pr.1 pr.2).failures
          = ((suite_totals (suite_cases (suiteCasesOf (parse_files files).cases
              (suiteName pr.1 pr.2)))).failures : ℤ))
      ∧ ((suiteRecord pr.1 pr.2).errors
          = ((suite_totals (suite_cases (suiteCasesOf (parse_files files).cases
              (suiteName pr.1 pr.2)))).errors : ℤ))
      ∧ ((suiteRecord pr.1 pr.2).skipped
          = ((suite_totals (suite_cases (suiteCasesOf (parse_files files).cases
              (suiteName pr.1 pr.2)))).skipped : ℤ)))
    ∧ ((parse_files files).totals.tests = ((parse_files files).cases.length : ℤ))
    ∧ ((parse_files files).totals.failures
        = (((parse_files files).cases.filter fun c => c.status = "fail").length : ℤ))
    ∧ ((parse_files files).totals.errors
        = (((parse_files files).cases.filter fun c => c.status = "err").length : ℤ))
    ∧ ((parse_files files).totals.skipped
        = (((parse_files files).cases.filter fun c => c.status = "skip").length : ℤ)) := by
  have hkey : ∀ pr ∈ allSuitePairs files,
      suiteCasesOf (parse_files files).cases (suiteName pr.1 pr.2)
        = casesOfPair pr := by
    intro pr hpr
    rw [cases_eq_pairs]
    exact flatMap_filter_unique (allSuitePairs files)
      (fun pr => suiteName pr.1 pr.2) casesOfPair (fun c => c.suite)
      (fun x _ => casesOfPair_suite x) hnd pr hpr
  constructor
  · intro pr hpr
    rw [hkey pr hpr, suite_totals_suite_cases]
    rcases hcons pr hpr with ⟨h1, h2, h3, h4⟩
    exact ⟨h1, h2, h3, h4⟩
  · have htests : (parse_files files).totals.tests
        = ((parse_files files).suites.map fun s => s.tests).sum := rfl
    have hfail : (parse_files files).totals.failures
        = ((parse_files files).suites.map fun s => s.failures).sum := rfl
    have herr : (parse_files files).totals.errors
        = ((parse_files files).suites.map fun s => s.errors).sum := rfl
    have hskip : (parse_files files).totals.skipped
        = ((parse_files files).suites.map fun s => s.skipped).sum := rfl
    have hlen : (parse_files files).cases.length
        = ((allSuitePairs files).map fun pr => (casesOfPair pr).length).sum := by
      rw [cases_eq_pairs, List.length_flatMap]
      rfl
    refine ⟨?_, ?_, ?_, ?_⟩
    · rw [htests, totals_sum_eq files _ (fun pr => (casesOfPair pr).length)
        (fun pr hpr => (hcons pr hpr).1), hlen]
    · rw [hfail, totals_sum_eq files _
        (fun pr => ((casesOfPair pr).filter fun c => c.status = "fail").length)
        (fun pr hpr => (hcons pr hpr).2.1), cases_filter_length]
    · rw [herr, totals_sum_eq files _
        (fun pr => ((casesOfPair pr).filter fun c => c.status = "err").length)
        (fun pr hpr => (hcons pr hpr).2.2.1), cases_filter_length]
    · rw [hskip, totals_sum_eq files _
        (fun pr => ((casesOfPair pr).filter fun c => c.status = "skip").length)
        (fun pr hpr => (hcons pr hpr).2.2.2), cases_filter_length]

/-- C3 witness: the agreement at the concrete consistent input `exFiles1`. -/
theorem C3_witness :
    (((allSuitePairs exFilesOK).map fun pr => suiteName pr.1 pr.2).Nodup
      ∧ ∀ pr ∈ allSuitePairs exFilesOK, AttrsConsistent pr)
    ∧ ((parse_files exFilesOK).totals.failures
        = (((parse_files exFilesOK).cases.filter fun c => c.status = "fail").length : ℤ)) := by
  have hnd : ((allSuitePairs exFilesOK).map fun pr => suiteName pr.1 pr.2).Nodup := by
    decide
  have hcons : ∀ pr ∈ allSuitePairs exFilesOK, AttrsConsistent pr := by
    intro pr hpr
    fin_cases hpr
    exact ⟨by decide, by decide, by decide, by decide⟩
  exact ⟨⟨hnd, hcons⟩, (C3_attr_agreement exFilesOK hnd hcons).2.2.1⟩
